import Mathlib

/-!
# Shynne Autowash backend — verification of the promotion engine and
  the daily free-wash winner registry

Shallow embedding of the JavaScript route handlers
(`src/routes/featuredVehicles.js` wash-creation/update part,
`src/routes/freeWashDraw.js`) and of the storage-layer SQL functions and
constraints (`sql/2025-11-08_daily_free_winners.sql`, `sql/001_init.sql`).

Conventions:
* Money and percentages are rationals (`ℚ`); JavaScript `Math.round` is
  `fun x => ⌊x + 1/2⌋` (round half toward positive infinity).
* Nullable values are `Option`; JavaScript string falsiness (`null`,
  `undefined`, `""`) is made explicit.
* Timestamps are reduced to a `(month, day)` pair, which is exactly the
  granularity the embedded queries inspect (`date_trunc('month', …)`
  comparisons and `DATE(washed_at) = CURRENT_DATE`).
* Each fallible external call inside the promo `try` block gets a fault
  flag; the `try` is a computation returning either the state at the throw
  point (`Sum.inl`) or the final state (`Sum.inr`).
-/

namespace Autowash

/-! ## JavaScript rounding and the money computation

Source (`featuredVehicles.js`, create handler and update handler):
```
const commission_amount =
  Math.round(((Number(price) * commissionPctEffective) / 100.0) * 100) / 100;
const profit_amount =
  Math.round((Number(price) - commission_amount) * 100) / 100;
```
-/

/-- JavaScript `Math.round`: round to nearest, half toward +∞
(`Rat.floor` is the computable floor, definitionally `⌊·⌋` on `ℚ`). -/
def jsRound (x : ℚ) : ℤ := Rat.floor (x + 1 / 2)

/-- Round to two decimal places with `Math.round` semantics. -/
def round2 (x : ℚ) : ℚ := (jsRound (x * 100) : ℚ) / 100

/-- `commission_amount` as computed by the create and update handlers. -/
def commissionAmount (price pct : ℚ) : ℚ :=
  (jsRound (price * pct / 100 * 100) : ℚ) / 100

/-- `profit_amount` as computed by the create and update handlers. -/
def profitAmount (price commission : ℚ) : ℚ :=
  (jsRound ((price - commission) * 100) : ℚ) / 100

/-- A rational is a 2-decimal currency amount (`NUMERIC(12,2)`). -/
def TwoDec (q : ℚ) : Prop := ∃ n : ℤ, q * 100 = (n : ℚ)

/-! ## Data model for the wash / promotion side

Rows of the tables the wash-creation handler reads and writes
(`001_init.sql`, `002` migration in `sql/…`, `app_settings`). -/

/-- A calendar timestamp at the granularity the embedded queries use:
`month` is an absolute month index, `day` a day index inside it. -/
structure Day where
  month : ℕ
  day : ℕ
deriving DecidableEq, Repr

instance : BEq Day := ⟨fun a b => decide (a = b)⟩

/-- `promotions` row. -/
structure Promotion where
  id : ℕ
  code : String
  is_active : Bool
deriving DecidableEq, Repr

/-- `customers` row. -/
structure Customer where
  id : ℕ
  name : Option String
  phone : Option String
  vehicle_reg : Option String
  visits_count : ℕ
deriving DecidableEq, Repr

/-- `washes` row (the columns the promotion engine and the claims read). -/
structure Wash where
  id : ℕ
  customer_id : Option ℕ
  vehicle_reg : Option String
  promo_id : Option ℕ
  is_free : Bool
  washed_at : Day
  unit_price : ℚ
  commission_pct : ℚ
  commission_amount : ℚ
  profit_amount : ℚ
deriving DecidableEq, Repr

/-- `featured_vehicles` row: a (plate, calendar-month) pair. -/
structure FeaturedEntry where
  vehicle_reg : String
  month : ℕ
deriving DecidableEq, Repr

/-- `service_prices` row. -/
structure ServicePrice where
  service_id : ℕ
  car_type_id : ℕ
  price : ℚ
deriving DecidableEq, Repr

/-- The `app_settings` singleton as the handler reads it
(`getAppSettings` returns `rows[0] || {}`, so every field may be absent;
use sites apply `!!…`, `Number(… || 0)` or a `!== false` test). -/
structure Settings where
  promo_free_enabled : Option Bool
  promo_free_prob : Option ℚ
  promo_free_min_visits : Option ℚ
  promo_free_daily_cap : Option ℚ
  featured_free_once_per_month : Option Bool
deriving DecidableEq, Repr

/-- The database state the wash-creation handler touches. -/
structure Db where
  settings : Settings
  promotions : List Promotion
  customers : List Customer
  washes : List Wash
  featured_vehicles : List FeaturedEntry
  service_prices : List ServicePrice
  nextCustomerId : ℕ
  nextWashId : ℕ
deriving DecidableEq, Repr

/-- JavaScript string falsiness of a nullable string
(`null`, `undefined` and `""` are falsy). -/
def jsFalsyStr : Option String → Bool
  | none => true
  | some s => s == ""

/-- `x || null` on a nullable string. -/
def orNull (s : Option String) : Option String :=
  if jsFalsyStr s then none else s

/-- `String.toUpperCase`, computed on the character list. -/
def jsToUpper (s : String) : String := ⟨s.data.map Char.toUpper⟩

/-- `String.trim`: strip whitespace from both ends, computed on the
character list. -/
def jsTrim (s : String) : String :=
  ⟨((s.data.dropWhile Char.isWhitespace).reverse.dropWhile
      Char.isWhitespace).reverse⟩

/-- `SELECT id FROM promotions WHERE code=<code> AND is_active=TRUE`,
returning `rows[0]?.id || null`. -/
def activePromoId (db : Db) (code : String) : Option ℕ :=
  ((db.promotions.filter (fun p => p.code == code && p.is_active)).head?).map (·.id)

/-- `getFreePromoId` (`code='FREE_WASH'`). -/
def getFreePromoId (db : Db) : Option ℕ := activePromoId db "FREE_WASH"

/-- `getLoyaltyPromoId` (`code='LOYALTY_13TH'`). -/
def getLoyaltyPromoId (db : Db) : Option ℕ := activePromoId db "LOYALTY_13TH"

/-- `getFeaturedPromoId` (`code='FEATURED_VEHICLE'`). -/
def getFeaturedPromoId (db : Db) : Option ℕ := activePromoId db "FEATURED_VEHICLE"

/-- `countFreeToday`: `COUNT(*) FROM washes WHERE is_free = TRUE AND
DATE(washed_at) = CURRENT_DATE`. Note: it counts every free wash of the
day, whatever promotion produced it. -/
def countFreeToday (db : Db) (today : Day) : ℕ :=
  (db.washes.filter (fun w => w.is_free && w.washed_at == today)).length

/-- `countCustomerWashesThisMonth`: count of the customer's washes whose
month equals the month of `COALESCE(washed_at, now())`. -/
def countCustomerWashesThisMonth (db : Db) (customerId : Option ℕ)
    (washedAt : Option Day) (now : Day) : ℕ :=
  match customerId with
  | none => 0
  | some cid =>
      (db.washes.filter (fun w =>
        w.customer_id == some cid &&
        w.washed_at.month == (washedAt.getD now).month)).length

/-- `firstDayOfMonth`, reduced to the month index of
`washed_at` or of the current time. -/
def monthOf (washedAt : Option Day) (now : Day) : ℕ :=
  (washedAt.getD now).month

/-- `isVehicleFeaturedForMonth`: `null` when the plate is falsy, else the
first `featured_vehicles` row matching the trimmed plate and the month. -/
def isVehicleFeaturedForMonth (db : Db) (vehicle_reg : Option String)
    (washedAt : Option Day) (now : Day) : Option FeaturedEntry :=
  if jsFalsyStr vehicle_reg then none
  else
    (db.featured_vehicles.filter (fun f =>
      f.vehicle_reg == jsTrim (vehicle_reg.getD "") &&
      f.month == monthOf washedAt now)).head?

/-- `hasUsedFeaturedRewardThisMonth`: true when some free wash of this
plate inside the month joins to a promotion with code
`FEATURED_VEHICLE`. -/
def hasUsedFeaturedRewardThisMonth (db : Db) (vehicle_reg : Option String)
    (washedAt : Option Day) (now : Day) : Bool :=
  if jsFalsyStr vehicle_reg then false
  else
    ((db.washes.filter (fun w =>
      w.vehicle_reg == some (jsTrim (vehicle_reg.getD "")) &&
      w.is_free &&
      (match w.promo_id with
       | none => false
       | some pid =>
           match db.promotions.find? (fun p => p.id == pid) with
           | none => false
           | some p => p.code == "FEATURED_VEHICLE") &&
      w.washed_at.month == monthOf washedAt now)).length) > 0

/-- `upsertCustomer`: `null` when both phone and plate are falsy; else
match by phone first, then by plate; create a fresh customer (visits 0)
when unmatched, otherwise `COALESCE`-update name and plate. Returns the
customer id and the updated database. -/
def upsertCustomer (db : Db) (name phone vehicle_reg : Option String) :
    Option ℕ × Db :=
  if jsFalsyStr phone && jsFalsyStr vehicle_reg then (none, db)
  else
    let byPhone : Option Customer :=
      if jsFalsyStr phone then none
      else db.customers.find? (fun c => c.phone == phone)
    let found : Option Customer :=
      match byPhone with
      | some c => some c
      | none =>
          if jsFalsyStr vehicle_reg then none
          else db.customers.find? (fun c => c.vehicle_reg == vehicle_reg)
    match found with
    | none =>
        let c : Customer :=
          { id := db.nextCustomerId, name := orNull name, phone := orNull phone,
            vehicle_reg := orNull vehicle_reg, visits_count := 0 }
        (some c.id,
         { db with customers := db.customers ++ [c],
                   nextCustomerId := db.nextCustomerId + 1 })
    | some c =>
        (some c.id,
         { db with customers := db.customers.map (fun x =>
             if x.id == c.id then
               { x with name := match orNull name with
                                | some n => some n
                                | none => x.name,
                        vehicle_reg := match orNull vehicle_reg with
                                       | some v => some v
                                       | none => x.vehicle_reg }
             else x) })

/-! ## The promotion `try` block of the wash-creation handler

Source: `POST /washes` in `featuredVehicles.js`. Every `await`ed call
inside the `try` may throw; each call site gets a fault flag. The block
is a computation: `Sum.inl s` means an exception was thrown while the
mutable locals had value `s`, `Sum.inr s` a normal completion. -/

/-- Which reward track granted (bookkeeping for the statements; the code
distinguishes the tracks by which branch assigned `promoId`). -/
inductive Track
  | featured
  | loyalty
  | random
deriving DecidableEq, Repr

/-- Fault flags, one per `await`ed call site inside the promo `try`. -/
structure Faults where
  upsert : Bool
  featuredLookup : Bool
  usedLookup : Bool
  settingsFeatured : Bool
  featuredPromo : Bool
  loyaltyCount : Bool
  loyaltyPromo : Bool
  settingsRandom : Bool
  visitsRead : Bool
  freeCount : Bool
  freePromo : Bool
deriving DecidableEq, Repr

/-- No call site throws. -/
def noFaults : Faults :=
  ⟨false, false, false, false, false, false, false, false, false, false, false⟩

/-- The mutable locals of the handler during promo evaluation, plus the
threaded database (the upsert may add a customer) and the `track` tag. -/
structure PromoState where
  customerId : Option ℕ
  isFree : Bool
  price : ℚ
  commissionPctEffective : ℚ
  promoId : Option ℕ
  track : Option Track
  db : Db
deriving DecidableEq, Repr

/-- Sequencing of throwing steps. -/
def pthen (x : PromoState ⊕ PromoState) (k : PromoState → PromoState ⊕ PromoState) :
    PromoState ⊕ PromoState :=
  match x with
  | .inl e => .inl e
  | .inr s => k s

/-- `customerId = await upsertCustomer({name, phone, vehicle_reg})`. -/
def upsertStep (f : Faults) (name phone vehicle_reg : Option String)
    (s : PromoState) : PromoState ⊕ PromoState :=
  if f.upsert then .inl s
  else
    let r := upsertCustomer s.db name phone vehicle_reg
    .inr { s with customerId := r.1, db := r.2 }

/-- Step (0): featured vehicle free once per month. -/
def featuredStep (f : Faults) (vehicle_reg : Option String)
    (washed_at : Option Day) (now : Day) (s : PromoState) :
    PromoState ⊕ PromoState :=
  if f.featuredLookup then .inl s
  else
    match isVehicleFeaturedForMonth s.db vehicle_reg washed_at now with
    | none => .inr s
    | some _ =>
        if f.usedLookup then .inl s
        else
          let alreadyUsed := hasUsedFeaturedRewardThisMonth s.db vehicle_reg washed_at now
          if f.settingsFeatured then .inl s
          else
            let enforceOnce := s.db.settings.featured_free_once_per_month != some false
            let canGrant := if enforceOnce then !alreadyUsed else true
            if canGrant then
              if f.featuredPromo then .inl s
              else
                match getFeaturedPromoId s.db with
                | some fPromo =>
                    .inr { s with isFree := true, price := 0,
                                  commissionPctEffective := 0,
                                  promoId := some fPromo, track := some .featured }
                | none => .inr s
            else .inr s

/-- Step (1): loyalty — every 13th wash this month is free. Note the
promo-id lookup is awaited after the grant already mutated the locals. -/
def loyaltyStep (f : Faults) (washed_at : Option Day) (now : Day)
    (s : PromoState) : PromoState ⊕ PromoState :=
  if !s.isFree && s.customerId.isSome then
    if f.loyaltyCount then .inl s
    else
      let cnt := countCustomerWashesThisMonth s.db s.customerId washed_at now
      if (cnt + 1) % 13 == 0 then
        let s1 := { s with isFree := true, price := 0,
                           commissionPctEffective := 0, track := some .loyalty }
        if f.loyaltyPromo then .inl s1
        else .inr { s1 with promoId := getLoyaltyPromoId s.db }
      else .inr s
  else .inr s

/-- Step (2): random promo, only if not already free. -/
def randomStep (f : Faults) (rand : ℚ) (now : Day) (s : PromoState) :
    PromoState ⊕ PromoState :=
  if !s.isFree then
    if f.settingsRandom then .inl s
    else
      let st := s.db.settings
      let promoEnabled := st.promo_free_enabled.getD false
      let prob := st.promo_free_prob.getD 0
      let minVisits := st.promo_free_min_visits.getD 0
      let dailyCap := st.promo_free_daily_cap.getD 0
      if promoEnabled && s.customerId.isSome then
        if f.visitsRead then .inl s
        else
          let visits : ℚ :=
            (((s.db.customers.find? (fun c => some c.id == s.customerId)).map
              (fun c => (c.visits_count : ℚ))).getD 0)
          if minVisits ≤ visits then
            if f.freeCount then .inl s
            else
              let todayUsed := countFreeToday s.db now
              let underCap := dailyCap == 0 || decide ((todayUsed : ℚ) < dailyCap)
              if underCap && decide (rand < prob) then
                if f.freePromo then .inl s
                else
                  match getFreePromoId s.db with
                  | some freeId =>
                      .inr { s with isFree := true, price := 0,
                                    commissionPctEffective := 0,
                                    promoId := some freeId, track := some .random }
                  | none => .inr s
              else .inr s
          else .inr s
      else .inr s
  else .inr s

/-- The handler's locals before the promo cascade runs. -/
def initPromoState (db : Db) (price0 commission_pct : ℚ) : PromoState :=
  { customerId := none, isFree := false, price := price0,
    commissionPctEffective := commission_pct, promoId := none,
    track := none, db := db }

/-- The whole `try` block, in source order. -/
def promoTry (db : Db) (f : Faults) (rand : ℚ) (now : Day)
    (name phone vehicle_reg : Option String) (washed_at : Option Day)
    (price0 commission_pct : ℚ) : PromoState ⊕ PromoState :=
  pthen (upsertStep f name phone vehicle_reg (initPromoState db price0 commission_pct)) (fun s1 =>
    pthen (featuredStep f vehicle_reg washed_at now s1) (fun s2 =>
      pthen (loyaltyStep f washed_at now s2) (fun s3 =>
        randomStep f rand now s3)))

/-- The `try`/`catch`: on an exception the handler clears `isFree` and
keeps `commissionPctEffective` when it is a number (a rational always
is); the price and the promo id are left as they were at the throw. -/
def promoEval (db : Db) (f : Faults) (rand : ℚ) (now : Day)
    (name phone vehicle_reg : Option String) (washed_at : Option Day)
    (price0 commission_pct : ℚ) : PromoState :=
  match promoTry db f rand now name phone vehicle_reg washed_at price0 commission_pct with
  | .inr s => s
  | .inl e => { e with isFree := false }

/-! ## The wash-creation and wash-update handlers -/

/-- Body of `POST /washes` (the fields the handler destructures;
`staff_id`, `unit_price`, `washed_at` default to `null`,
`commission_pct` to `30.0`). -/
structure CreateReq where
  service_id : Option ℕ
  car_type_id : Option ℕ
  staff_id : Option ℕ
  unit_price : Option ℚ
  washed_at : Option Day
  commission_pct : Option ℚ
  customer_name : Option String
  customer_phone : Option String
  vehicle_reg : Option String
deriving DecidableEq, Repr

/-- Caller-visible failures of the handlers (4xx responses). -/
inductive WashErr
  | missingFields
  | priceNotConfigured
  | notFound
deriving DecidableEq, Repr

instance {ε α : Type} [DecidableEq ε] [DecidableEq α] :
    DecidableEq (Except ε α) := fun
  | .error a, .error b =>
      match decEq a b with
      | isTrue h => isTrue (h ▸ rfl)
      | isFalse h => isFalse (fun hc => h (Except.error.inj hc))
  | .error _, .ok _ => isFalse (fun hc => Except.noConfusion hc)
  | .ok _, .error _ => isFalse (fun hc => Except.noConfusion hc)
  | .ok a, .ok b =>
      match decEq a b with
      | isTrue h => isTrue (h ▸ rfl)
      | isFalse h => isFalse (fun hc => h (Except.ok.inj hc))

/-- Default-price lookup: `SELECT price FROM service_prices WHERE …`. -/
def lookupServicePrice (db : Db) (service_id car_type_id : Option ℕ) : Option ℚ :=
  (db.service_prices.find? (fun sp =>
    some sp.service_id == service_id && some sp.car_type_id == car_type_id)).map (·.price)

/-- The row the wash insert writes, from the promo evaluation's state
and the computed commission and profit. -/
def washRecordOf (s : PromoState) (req : CreateReq) (now : Day) : Wash :=
  { id := s.db.nextWashId,
    customer_id := s.customerId,
    vehicle_reg := orNull req.vehicle_reg,
    promo_id := s.promoId,
    is_free := s.isFree,
    washed_at := req.washed_at.getD now,
    unit_price := s.price,
    commission_pct := s.commissionPctEffective,
    commission_amount := commissionAmount s.price s.commissionPctEffective,
    profit_amount := profitAmount s.price
      (commissionAmount s.price s.commissionPctEffective) }

/-- The database after the wash insert and the conditional
`visits_count` increment. -/
def dbAfterCreate (s : PromoState) (w : Wash) : Db :=
  let db1 := { s.db with washes := s.db.washes ++ [w],
                         nextWashId := s.db.nextWashId + 1 }
  match s.customerId with
  | none => db1
  | some cid =>
      { db1 with customers := db1.customers.map (fun c =>
          if c.id == cid then { c with visits_count := c.visits_count + 1 }
          else c) }

/-- The price resolution of `POST /washes`. -/
def resolvePrice (db : Db) (req : CreateReq) : Option ℚ :=
  match req.unit_price with
  | some p => some p
  | none => lookupServicePrice db req.service_id req.car_type_id

/-- `POST /washes`: validate ids, resolve the price, run the promo
  evaluation (errors swallowed), compute commission and profit, insert the
  wash, and increment the customer's visit counter when an identity was
  resolved. Returns the new database and the inserted row. -/
def createWash (db : Db) (f : Faults) (rand : ℚ) (now : Day) (req : CreateReq) :
    Except WashErr (Db × Wash) :=
  if req.service_id.isNone || req.car_type_id.isNone then .error .missingFields
  else
    match resolvePrice db req with
    | none => .error .priceNotConfigured
    | some price0 =>
        let s := promoEval db f rand now req.customer_name req.customer_phone
                   req.vehicle_reg req.washed_at price0 (req.commission_pct.getD 30)
        let w := washRecordOf s req now
        .ok (dbAfterCreate s w, w)

/-- Body of `PUT /washes/:id`. -/
structure UpdateReq where
  service_id : Option ℕ
  car_type_id : Option ℕ
  staff_id : Option ℕ
  unit_price : Option ℚ
  washed_at : Option Day
  commission_pct : Option ℚ
deriving DecidableEq, Repr

/-- `PUT /washes/:id`: 404 when the wash is absent; otherwise recompute
commission and profit from `unit_price ?? existing.unit_price` and the
request's `commission_pct` (default 30), and update the row. -/
def updateWash (db : Db) (id : ℕ) (req : UpdateReq) :
    Except WashErr (Db × Wash) :=
  match db.washes.find? (fun w => w.id == id) with
  | none => .error .notFound
  | some existing =>
      let price := req.unit_price.getD existing.unit_price
      let pct := req.commission_pct.getD 30
      let ca := commissionAmount price pct
      let pa := profitAmount price ca
      let w' : Wash :=
        { existing with
            unit_price := price,
            commission_pct := pct,
            commission_amount := ca,
            profit_amount := pa,
            washed_at := req.washed_at.getD existing.washed_at }
      .ok ({ db with washes := db.washes.map (fun x => if x.id == id then w' else x) }, w')

/-! ## Daily free-wash winner registry

`freeWashDraw.js` routes plus the `2025-11-08_daily_free_winners.sql`
storage layer (status enum, candidate table, approval / reschedule /
revoke functions, and the partial unique index on APPROVED rows).
Draw dates are the `YYYY-MM-DD` strings the routes pass around. -/

/-- `daily_free_status` enum. -/
inductive WStatus
  | pending
  | approved
  | revoked
deriving DecidableEq, Repr

instance : BEq WStatus := ⟨fun a b => decide (a = b)⟩

/-- `daily_free_winners` row. -/
structure WinnerRow where
  id : ℕ
  draw_date : String
  customer_id : Option ℕ
  vehicle_reg : Option String
  customer_phone : Option String
  customer_name : Option String
  status : WStatus
  note : Option String
  created_by : Option ℕ
deriving DecidableEq, Repr

/-- `daily_free_candidates` row. -/
structure CandRow where
  id : ℕ
  draw_date : String
  customer_id : Option ℕ
  vehicle_reg : Option String
  customer_phone : Option String
  customer_name : Option String
deriving DecidableEq, Repr

/-- Registry database state. -/
structure RegDb where
  winners : List WinnerRow
  candidates : List CandRow
  nextId : ℕ
deriving DecidableEq, Repr

/-- Registry errors (HTTP status / SQL exception classes). -/
inductive RegErr
  | conflict
  | notFound
  | validation
  | uniqueViolation
deriving DecidableEq, Repr

/-- `^\d{4}-\d{2}-\d{2}$` on a string. -/
def matchIsoDay (s : String) : Bool :=
  let l := s.data
  l.length == 10 &&
  (l.getD 0 ' ').isDigit && (l.getD 1 ' ').isDigit &&
  (l.getD 2 ' ').isDigit && (l.getD 3 ' ').isDigit &&
  (l.getD 4 ' ') == '-' &&
  (l.getD 5 ' ').isDigit && (l.getD 6 ' ').isDigit &&
  (l.getD 7 ' ') == '-' &&
  (l.getD 8 ' ').isDigit && (l.getD 9 ' ').isDigit

/-- `isoDay`: take the first ten characters of the (stringified) input;
if they match `YYYY-MM-DD` keep them, else fall back to today. -/
def isoDay (s : Option String) (today : String) : String :=
  let d := (s.getD "").take 10
  if matchIsoDay d then d else today

/-- `^\d{4}-\d{2}$` on a string. -/
def matchYYYYMM (s : String) : Bool :=
  let l := s.data
  l.length == 7 &&
  (l.getD 0 ' ').isDigit && (l.getD 1 ' ').isDigit &&
  (l.getD 2 ' ').isDigit && (l.getD 3 ' ').isDigit &&
  (l.getD 4 ' ') == '-' &&
  (l.getD 5 ' ').isDigit && (l.getD 6 ' ').isDigit

/-- `monthYYYYMM` helper of the registry routes. -/
def monthYYYYMM (s : Option String) (todayMonth : String) : String :=
  let m := (s.getD "").take 7
  if matchYYYYMM m then m else todayMonth

/-- Approved winners at a date (the domain of the partial unique index
`uniq_daily_free_winners_approved_per_day`). -/
def approvedAt (db : RegDb) (d : String) : List WinnerRow :=
  db.winners.filter (fun w => w.draw_date == d && w.status == .approved)

/-- Storage-level insert into `daily_free_winners`: the partial unique
index rejects an APPROVED row when the date already has one. -/
def dbInsertWinner (db : RegDb) (d : String) (cid : Option ℕ)
    (reg phone nm : Option String) (status : WStatus) (note : Option String)
    (userId : Option ℕ) : Except RegErr (RegDb × WinnerRow) :=
  if status == .approved && !(approvedAt db d).isEmpty then .error .uniqueViolation
  else
    let row : WinnerRow :=
      { id := db.nextId, draw_date := d, customer_id := cid, vehicle_reg := reg,
        customer_phone := phone, customer_name := nm, status := status,
        note := note, created_by := userId }
    .ok ({ db with winners := db.winners ++ [row], nextId := db.nextId + 1 }, row)

/-- `assertDayFree` = true when some winner row (any status) has the
date: `SELECT id FROM daily_free_winners WHERE draw_date = $1 LIMIT 1`. -/
def dayTaken (db : RegDb) (d : String) : Bool :=
  db.winners.any (fun w => w.draw_date == d)

/-- Route helper `insertWinner` (status takes the table default
APPROVED; string fields go through `x || null`). -/
def insertWinner (db : RegDb) (d : String) (cid : Option ℕ)
    (reg phone nm : Option String) (userId : Option ℕ) :
    Except RegErr (RegDb × WinnerRow) :=
  dbInsertWinner db d cid (orNull reg) (orNull phone) (orNull nm)
    .approved none userId

/-- `(req.body?.vehicle_reg || "").toUpperCase().trim() || null`. -/
def normRegParam (r : Option String) : Option String :=
  if jsTrim (jsToUpper (r.getD "")) == "" then none
  else some (jsTrim (jsToUpper (r.getD "")))

/-- `GET /?date=…`: the winner row (any status) for the resolved day. -/
def getWinnerRoute (db : RegDb) (dateParam : Option String) (today : String) :
    Option WinnerRow :=
  db.winners.find? (fun w => w.draw_date == isoDay dateParam today)

/-- `POST /approve`: pre-check with `assertDayFree`, then insert. -/
def approveRoute (db : RegDb) (dateParam : Option String) (today : String)
    (customer_id : Option ℕ) (vehicle_reg phone nm : Option String)
    (userId : Option ℕ) : Except RegErr (RegDb × WinnerRow) :=
  if dayTaken db (isoDay dateParam today) then .error .conflict
  else insertWinner db (isoDay dateParam today) customer_id
         (normRegParam vehicle_reg) phone nm userId

/-- Result of `POST /draw`. -/
inductive DrawResult
  | existing (w : WinnerRow)
  | suggestion (c : CandRow)
  | created (w : WinnerRow)
deriving DecidableEq, Repr

/-- `POST /draw`: idempotent on an existing winner; otherwise pick a
candidate uniformly (`pick` stands for `Math.floor(Math.random()*len)`),
return it as a suggestion, or — with `autoApprove` — assert the day free
and insert. The candidate list is the result of `fetchCandidates`. -/
def drawRoute (db : RegDb) (dateParam : Option String) (today : String)
    (cands : List CandRow) (pick : ℕ) (autoApprove : Bool)
    (userId : Option ℕ) : Except RegErr (RegDb × DrawResult) :=
  match db.winners.find? (fun w => w.draw_date == isoDay dateParam today) with
  | some w => .ok (db, .existing w)
  | none =>
      match cands.get? (pick % cands.length) with
      | none => .error .notFound
      | some c =>
          if !autoApprove then .ok (db, .suggestion c)
          else if dayTaken db (isoDay dateParam today) then .error .conflict
          else
            match insertWinner db (isoDay dateParam today) c.customer_id c.vehicle_reg
                    c.customer_phone c.customer_name userId with
            | .error e => .error e
            | .ok (db', w) => .ok (db', .created w)

/-- `POST /reschedule` (alias `/move`): resolve `to_date` through
`isoDay`, reject when falsy, assert the day free, insert a winner row. -/
def rescheduleRoute (db : RegDb) (to_date : Option String) (today : String)
    (customer_id : Option ℕ) (vehicle_reg phone nm : Option String)
    (userId : Option ℕ) : Except RegErr (RegDb × WinnerRow) :=
  if isoDay to_date today == "" then .error .validation
  else if dayTaken db (isoDay to_date today) then .error .conflict
  else insertWinner db (isoDay to_date today) customer_id
         (normRegParam vehicle_reg) phone nm userId

/-- `DELETE /?date=…`: delete every winner row of the day; 404 when none
existed. -/
def deleteRoute (db : RegDb) (dateParam : Option String) (today : String) :
    Except RegErr RegDb :=
  if (db.winners.filter (fun w => !(w.draw_date == isoDay dateParam today))).length ==
      db.winners.length then .error .notFound
  else .ok { db with winners :=
    db.winners.filter (fun w => !(w.draw_date == isoDay dateParam today)) }

/-- `COALESCE(NULLIF(UPPER(vehicle_reg), ''), '')` — the identity
normalisation of the SQL candidate-duplicate check. -/
def sqlNormReg (r : Option String) : String :=
  jsToUpper (r.getD "")

/-- `approve_daily_free_candidate`: candidate required and looked up;
the target date (or the candidate's) must have no APPROVED winner; then
an APPROVED winner row is inserted with the note. -/
def approveCandidateFn (db : RegDb) (candId : Option ℕ)
    (pDrawDate : Option String) (approver : Option ℕ) (note : Option String) :
    Except RegErr (RegDb × WinnerRow) :=
  match candId with
  | none => .error .validation
  | some cid =>
      match db.candidates.find? (fun c => c.id == cid) with
      | none => .error .notFound
      | some cand =>
          let vdate := pDrawDate.getD cand.draw_date
          if !(approvedAt db vdate).isEmpty then .error .conflict
          else dbInsertWinner db vdate cand.customer_id cand.vehicle_reg
                 cand.customer_phone cand.customer_name .approved note approver

/-- `reschedule_daily_free_candidate`: both arguments required; the
candidate looked up; a duplicate candidate (same `customer_id`, same
normalised plate, different row) on the new date raises; otherwise the
candidate row itself is moved to the new date. No winner row is written
and no winner check is made. -/
def rescheduleCandidateFn (db : RegDb) (candId : Option ℕ)
    (newDate : Option String) : Except RegErr (RegDb × CandRow) :=
  match candId, newDate with
  | none, _ => .error .validation
  | _, none => .error .validation
  | some cid, some nd =>
      match db.candidates.find? (fun c => c.id == cid) with
      | none => .error .notFound
      | some cand =>
          match db.candidates.find? (fun c =>
            c.draw_date == nd && c.customer_id == cand.customer_id &&
            sqlNormReg c.vehicle_reg == sqlNormReg cand.vehicle_reg &&
            c.id != cand.id) with
          | some _ => .error .conflict
          | none =>
              let cand' := { cand with draw_date := nd }
              .ok ({ db with candidates := db.candidates.map (fun c =>
                      if c.id == cand.id then { c with draw_date := nd } else c) },
                   cand')

/-- `revoke_daily_free_winner`: set the winner's status to REVOKED and
append `[REVOCATION] reason` to the note; raise when the id is absent. -/
def revokeWinnerFn (db : RegDb) (winnerId : ℕ) (reason : Option String) :
    Except RegErr (RegDb × WinnerRow) :=
  match db.winners.find? (fun w => w.id == winnerId) with
  | none => .error .notFound
  | some w =>
      let w' : WinnerRow :=
        { w with status := .revoked,
                 note := some ((w.note.getD "") ++
                   (match reason with
                    | some r => "\n[REVOCATION] " ++ r
                    | none => "")) }
      .ok ({ db with winners := db.winners.map (fun x =>
              if x.id == winnerId then
                { x with status := .revoked,
                         note := some ((x.note.getD "") ++
                           (match reason with
                            | some r => "\n[REVOCATION] " ++ r
                            | none => "")) }
              else x) }, w')

/-- The per-day singleton invariant: at most one APPROVED winner row per
draw date. -/
def atMostOneApproved (db : RegDb) : Prop :=
  ∀ d : String, (approvedAt db d).length ≤ 1

/-- The state carried by either outcome of a throwing step. -/
def outState : PromoState ⊕ PromoState → PromoState
  | .inl s => s
  | .inr s => s

/-! ## Rounding and money lemmas -/

theorem ratFloor_eq_intFloor (q : ℚ) : Rat.floor q = ⌊q⌋ := rfl

theorem jsRound_intCast (n : ℤ) : jsRound (n : ℚ) = n := by
  unfold jsRound
  rw [ratFloor_eq_intFloor, Int.floor_eq_iff]
  constructor
  · linarith
  · linarith

theorem commissionAmount_eq_round2 (price pct : ℚ) :
    commissionAmount price pct = round2 (price * pct / 100) := by
  unfold commissionAmount round2
  rfl

theorem profitAmount_eq_round2 (price ca : ℚ) :
    profitAmount price ca = round2 (price - ca) := by
  unfold profitAmount round2
  rfl

theorem twoDec_commissionAmount (price pct : ℚ) :
    TwoDec (commissionAmount price pct) := by
  refine ⟨jsRound (price * pct / 100 * 100), ?_⟩
  unfold commissionAmount
  field_simp

/-- Core money lemma: with a 2-decimal price, profit is exact subtraction
and the two computed amounts sum back to the price. -/
theorem money_sum (price pct : ℚ) (h : TwoDec price) :
    commissionAmount price pct + profitAmount price (commissionAmount price pct) = price := by
  obtain ⟨n, hn⟩ := h
  set m := jsRound (price * pct / 100 * 100) with hm
  have hca : commissionAmount price pct = (m : ℚ) / 100 := by
    unfold commissionAmount
    rw [← hm]
  have harg : (price - commissionAmount price pct) * 100 = ((n - m : ℤ) : ℚ) := by
    rw [hca]
    push_cast
    linarith
  have hpa : profitAmount price (commissionAmount price pct) = ((n - m : ℤ) : ℚ) / 100 := by
    unfold profitAmount
    rw [harg, jsRound_intCast]
  have hprice : price = (n : ℚ) / 100 := by
    field_simp at hn ⊢
    linarith
  rw [hpa, hca, hprice]
  push_cast
  ring

/-! ## Date-handling lemmas (claim C9) -/

theorem matchIsoDay_length {s : String} (h : matchIsoDay s = true) :
    s.data.length = 10 := by
  unfold matchIsoDay at h
  simp only [Bool.and_eq_true, beq_iff_eq] at h
  exact h.1.1.1.1.1.1.1.1.1.1

theorem matchIsoDay_ne_empty {s : String} (h : matchIsoDay s = true) :
    s ≠ "" := by
  intro he
  have := matchIsoDay_length h
  rw [he] at this
  simp at this

theorem isoDay_of_not_match {s : Option String} {today : String}
    (h : matchIsoDay ((s.getD "").take 10) = false) :
    isoDay s today = today := by
  unfold isoDay
  simp [h]

theorem string_take_all {s : String} {n : ℕ} (h : s.data.length ≤ n) :
    s.take n = s := by
  cases s with
  | mk l =>
      rw [String.take_eq]
      simp only
      congr 1
      exact List.take_of_length_le h

theorem isoDay_some_today {today : String} (h : matchIsoDay today = true) :
    isoDay (some today) today = today := by
  unfold isoDay
  have ht : today.take 10 = today := string_take_all (le_of_eq (matchIsoDay_length h))
  simp [ht, h]

theorem matchIsoDay_isoDay {s : Option String} {today : String}
    (h : matchIsoDay today = true) : matchIsoDay (isoDay s today) = true := by
  unfold isoDay
  by_cases hm : matchIsoDay ((s.getD "").take 10) = true
  · simp [hm]
  · simp only [Bool.not_eq_true] at hm
    simp [hm, h]

theorem insertWinner_ne_validation (db : RegDb) (d : String) (cid : Option ℕ)
    (reg phone nm : Option String) (uid : Option ℕ) :
    insertWinner db d cid reg phone nm uid ≠ .error .validation := by
  unfold insertWinner dbInsertWinner
  split <;> simp

/-- C9: every Daily Winner Registry operation resolves its date
parameter through `isoDay`, which silently replaces a missing or
malformed date (anything not matching `YYYY-MM-DD`) by the current
date: the resolved date always matches the pattern, each modelled
operation behaves on a malformed date exactly as on today's date, the
reschedule handler's `to_date is required` branch is unreachable, and no
registry operation fails with a validation error for an absent date. -/
theorem registry_date_fallback (today : String)
    (htoday : matchIsoDay today = true) :
    (∀ s : Option String, matchIsoDay (isoDay s today) = true)
  ∧ (∀ s : Option String, matchIsoDay ((s.getD "").take 10) = false →
      isoDay s today = today)
  ∧ (∀ (db : RegDb) (to_date : Option String) (cid : Option ℕ)
       (reg phone nm : Option String) (uid : Option ℕ),
      rescheduleRoute db to_date today cid reg phone nm uid ≠ .error .validation)
  ∧ (∀ (db : RegDb) (s : Option String),
      matchIsoDay ((s.getD "").take 10) = false →
      getWinnerRoute db s today = getWinnerRoute db (some today) today)
  ∧ (∀ (db : RegDb) (s : Option String) (cid : Option ℕ)
       (reg phone nm : Option String) (uid : Option ℕ),
      matchIsoDay ((s.getD "").take 10) = false →
      approveRoute db s today cid reg phone nm uid =
        approveRoute db (some today) today cid reg phone nm uid)
  ∧ (∀ (db : RegDb) (s : Option String) (cands : List CandRow) (pick : ℕ)
       (auto : Bool) (uid : Option ℕ),
      matchIsoDay ((s.getD "").take 10) = false →
      drawRoute db s today cands pick auto uid =
        drawRoute db (some today) today cands pick auto uid)
  ∧ (∀ (db : RegDb) (s : Option String),
      matchIsoDay ((s.getD "").take 10) = false →
      deleteRoute db s today = deleteRoute db (some today) today) := by
  refine ⟨fun s => matchIsoDay_isoDay htoday, fun s h => isoDay_of_not_match h,
          ?_, ?_, ?_, ?_, ?_⟩
  · intro db to_date cid reg phone nm uid
    unfold rescheduleRoute
    have h1 : matchIsoDay (isoDay to_date today) = true := matchIsoDay_isoDay htoday
    have h2 : (isoDay to_date today == "") = false := by
      rw [beq_eq_false_iff_ne]
      exact matchIsoDay_ne_empty h1
    simp only [h2, Bool.false_eq_true, if_false]
    split
    · simp
    · exact insertWinner_ne_validation _ _ _ _ _ _ _
  · intro db s h
    unfold getWinnerRoute
    rw [isoDay_of_not_match h, isoDay_some_today htoday]
  · intro db s cid reg phone nm uid h
    unfold approveRoute
    rw [isoDay_of_not_match h, isoDay_some_today htoday]
  · intro db s cands pick auto uid h
    unfold drawRoute
    rw [isoDay_of_not_match h, isoDay_some_today htoday]
  · intro db s h
    unfold deleteRoute
    rw [isoDay_of_not_match h, isoDay_some_today htoday]

/-- Witness for C9 at a concrete date and a malformed parameter. -/
theorem registry_date_fallback_witness :
    matchIsoDay "2025-11-08" = true ∧
    isoDay (some "garbage") "2025-11-08" = "2025-11-08" := by
  constructor
  · decide
  · exact (registry_date_fallback "2025-11-08" (by decide)).2.1
      (some "garbage") (by decide)

/-! ## Structure of the promo pipeline -/

/-- Either outcome of the upsert step only sets the customer id and the
database. -/
theorem upsertStep_out {f : Faults} {n p r : Option String}
    {s : PromoState} {res : PromoState ⊕ PromoState}
    (h : upsertStep f n p r s = res) :
    ∃ cid db', outState res = { s with customerId := cid, db := db' } := by
  subst h
  unfold upsertStep
  split
  · exact ⟨s.customerId, s.db, rfl⟩
  · exact ⟨_, _, rfl⟩

/-- Either outcome of the featured step is the input state or a
featured grant. -/
theorem featuredStep_out {f : Faults} {reg : Option String}
    {washed : Option Day} {now : Day} {s : PromoState}
    {res : PromoState ⊕ PromoState}
    (h : featuredStep f reg washed now s = res) :
    outState res = s ∨
    ∃ fp, outState res =
      { s with isFree := true, price := 0, commissionPctEffective := 0,
               promoId := some fp, track := some Track.featured } := by
  subst h
  unfold featuredStep
  dsimp only
  repeat' split
  all_goals first
    | exact Or.inl rfl
    | exact Or.inr ⟨_, rfl⟩

/-- Either outcome of the loyalty step is the input state or a loyalty
grant (the throw at the promo-id lookup has the grant without the id). -/
theorem loyaltyStep_out {f : Faults} {washed : Option Day} {now : Day}
    {s : PromoState} {res : PromoState ⊕ PromoState}
    (h : loyaltyStep f washed now s = res) :
    outState res = s ∨
    ∃ pid, outState res =
      { s with isFree := true, price := 0, commissionPctEffective := 0,
               promoId := pid, track := some Track.loyalty } := by
  subst h
  unfold loyaltyStep
  dsimp only
  repeat' split
  all_goals first
    | exact Or.inl rfl
    | exact Or.inr ⟨s.promoId, rfl⟩
    | exact Or.inr ⟨_, rfl⟩

/-- Either outcome of the random step is the input state or a random
grant. -/
theorem randomStep_out {f : Faults} {rand : ℚ} {now : Day}
    {s : PromoState} {res : PromoState ⊕ PromoState}
    (h : randomStep f rand now s = res) :
    outState res = s ∨
    ∃ pid, outState res =
      { s with isFree := true, price := 0, commissionPctEffective := 0,
               promoId := some pid, track := some Track.random } := by
  subst h
  unfold randomStep
  dsimp only
  repeat' split
  all_goals first
    | exact Or.inl rfl
    | exact Or.inr ⟨_, rfl⟩

/-- Any state the promo pipeline can stop in — normally or at a throw —
either still carries the proposed price and the caller's commission
percentage (whenever no grant has happened, i.e. `isFree` is false), or
was granted (price 0). -/
theorem promoTry_out_cases (db : Db) (f : Faults) (rand : ℚ) (now : Day)
    (n p r : Option String) (washed : Option Day) (price0 pct : ℚ) :
    ((outState (promoTry db f rand now n p r washed price0 pct)).isFree = false →
      (outState (promoTry db f rand now n p r washed price0 pct)).price = price0 ∧
      (outState (promoTry db f rand now n p r washed price0 pct)).commissionPctEffective = pct)
    ∧ ((outState (promoTry db f rand now n p r washed price0 pct)).price = price0 ∨
       (outState (promoTry db f rand now n p r washed price0 pct)).price = 0) := by
  unfold promoTry
  set s0 : PromoState := initPromoState db price0 pct with hs0
  -- a state "is fine" when it has the shape every reachable state has
  have key : ∀ s : PromoState,
      (s.isFree = false → s.price = price0 ∧ s.commissionPctEffective = pct) →
      (s.price = price0 ∨ s.price = 0) →
      ((outState (pthen (featuredStep f r washed now s) (fun s2 =>
          pthen (loyaltyStep f washed now s2) (fun s3 =>
            randomStep f rand now s3)))).isFree = false →
        (outState (pthen (featuredStep f r washed now s) (fun s2 =>
          pthen (loyaltyStep f washed now s2) (fun s3 =>
            randomStep f rand now s3)))).price = price0 ∧
        (outState (pthen (featuredStep f r washed now s) (fun s2 =>
          pthen (loyaltyStep f washed now s2) (fun s3 =>
            randomStep f rand now s3)))).commissionPctEffective = pct)
      ∧ ((outState (pthen (featuredStep f r washed now s) (fun s2 =>
          pthen (loyaltyStep f washed now s2) (fun s3 =>
            randomStep f rand now s3)))).price = price0 ∨
         (outState (pthen (featuredStep f r washed now s) (fun s2 =>
          pthen (loyaltyStep f washed now s2) (fun s3 =>
            randomStep f rand now s3)))).price = 0) := by
    intro s hfree hprice
    cases hfs : featuredStep f r washed now s with
    | inl e =>
        simp only [pthen, outState]
        rcases featuredStep_out hfs with h | ⟨fp, h⟩ <;>
          simp only [outState] at h <;> subst h
        · exact ⟨hfree, hprice⟩
        · exact ⟨fun hc => absurd hc (by simp), Or.inr rfl⟩
    | inr s2 =>
        simp only [pthen]
        have hs2' : s2 = s ∨ ∃ fp, s2 =
            { s with isFree := true, price := 0, commissionPctEffective := 0,
                     promoId := some fp, track := some Track.featured } := by
          rcases featuredStep_out hfs with h | ⟨fp, h⟩ <;> simp only [outState] at h
          · exact Or.inl h
          · exact Or.inr ⟨fp, h⟩
        have h2free : s2.isFree = false → s2.price = price0 ∧ s2.commissionPctEffective = pct := by
          rcases hs2' with h | ⟨fp, h⟩ <;> subst h
          · exact hfree
          · intro hc
            exact absurd hc (by simp)
        have h2price : s2.price = price0 ∨ s2.price = 0 := by
          rcases hs2' with h | ⟨fp, h⟩ <;> subst h
          · exact hprice
          · exact Or.inr rfl
        cases hls : loyaltyStep f washed now s2 with
        | inl e =>
            simp only [pthen, outState]
            rcases loyaltyStep_out hls with h | ⟨pid, h⟩ <;>
              simp only [outState] at h <;> subst h
            · exact ⟨h2free, h2price⟩
            · exact ⟨fun hc => absurd hc (by simp), Or.inr rfl⟩
        | inr s3 =>
            simp only [pthen]
            have hs3' : s3 = s2 ∨ ∃ pid, s3 =
                { s2 with isFree := true, price := 0, commissionPctEffective := 0,
                          promoId := pid, track := some Track.loyalty } := by
              rcases loyaltyStep_out hls with h | ⟨pid, h⟩ <;> simp only [outState] at h
              · exact Or.inl h
              · exact Or.inr ⟨pid, h⟩
            have h3free : s3.isFree = false → s3.price = price0 ∧ s3.commissionPctEffective = pct := by
              rcases hs3' with h | ⟨pid, h⟩ <;> subst h
              · exact h2free
              · intro hc
                exact absurd hc (by simp)
            have h3price : s3.price = price0 ∨ s3.price = 0 := by
              rcases hs3' with h | ⟨pid, h⟩ <;> subst h
              · exact h2price
              · exact Or.inr rfl
            rcases randomStep_out (rfl :
                randomStep f rand now s3 = randomStep f rand now s3) with h | ⟨pid, h⟩ <;>
              rw [h]
            · exact ⟨h3free, h3price⟩
            · exact ⟨fun hc => absurd hc (by simp), Or.inr rfl⟩
  cases hus : upsertStep f n p r s0 with
  | inl e =>
      simp only [pthen, outState]
      obtain ⟨cid, db', hout⟩ := upsertStep_out hus
      simp only [outState] at hout
      subst hout
      exact ⟨fun _ => ⟨rfl, rfl⟩, Or.inl rfl⟩
  | inr s1 =>
      simp only [pthen]
      obtain ⟨cid, db', hout⟩ := upsertStep_out hus
      simp only [outState] at hout
      subst hout
      exact key _ (fun _ => ⟨rfl, rfl⟩) (Or.inl rfl)

theorem promoEval_inl {db : Db} {f : Faults} {rand : ℚ} {now : Day}
    {n p r : Option String} {washed : Option Day} {price0 pct : ℚ}
    {e : PromoState}
    (h : promoTry db f rand now n p r washed price0 pct = .inl e) :
    promoEval db f rand now n p r washed price0 pct = { e with isFree := false } := by
  unfold promoEval
  rw [h]

theorem promoEval_inr {db : Db} {f : Faults} {rand : ℚ} {now : Day}
    {n p r : Option String} {washed : Option Day} {price0 pct : ℚ}
    {s : PromoState}
    (h : promoTry db f rand now n p r washed price0 pct = .inr s) :
    promoEval db f rand now n p r washed price0 pct = s := by
  unfold promoEval
  rw [h]

/-- The evaluation result only differs from the stopping state of the
pipeline in the `isFree` flag (cleared by the `catch`). -/
theorem promoEval_eq_out (db : Db) (f : Faults) (rand : ℚ) (now : Day)
    (n p r : Option String) (washed : Option Day) (price0 pct : ℚ) :
    promoEval db f rand now n p r washed price0 pct =
      outState (promoTry db f rand now n p r washed price0 pct) ∨
    promoEval db f rand now n p r washed price0 pct =
      { outState (promoTry db f rand now n p r washed price0 pct) with isFree := false } := by
  cases h : promoTry db f rand now n p r washed price0 pct with
  | inl e =>
      right
      rw [promoEval_inl h]
      simp only [outState]
  | inr s =>
      left
      rw [promoEval_inr h]
      simp only [outState]

/-- The evaluated price is the proposed price or zero, and when no
track granted it is exactly the proposed price with the caller's
commission percentage. -/
theorem promoEval_price_cases (db : Db) (f : Faults) (rand : ℚ) (now : Day)
    (n p r : Option String) (washed : Option Day) (price0 pct : ℚ) :
    ((promoEval db f rand now n p r washed price0 pct).price = price0 ∨
     (promoEval db f rand now n p r washed price0 pct).price = 0) := by
  rcases promoEval_eq_out db f rand now n p r washed price0 pct with h | h <;> rw [h]
  · exact (promoTry_out_cases db f rand now n p r washed price0 pct).2
  · exact (promoTry_out_cases db f rand now n p r washed price0 pct).2

/-- Inversion of a successful wash creation. -/
theorem createWash_ok_inv {db : Db} {f : Faults} {rand : ℚ} {now : Day}
    {req : CreateReq} {db' : Db} {w : Wash}
    (h : createWash db f rand now req = .ok (db', w)) :
    ∃ price0, resolvePrice db req = some price0 ∧
      w = washRecordOf
            (promoEval db f rand now req.customer_name req.customer_phone
              req.vehicle_reg req.washed_at price0 (req.commission_pct.getD 30))
            req now ∧
      db' = dbAfterCreate
              (promoEval db f rand now req.customer_name req.customer_phone
                req.vehicle_reg req.washed_at price0 (req.commission_pct.getD 30))
              w := by
  unfold createWash at h
  split at h
  · exact absurd h (by simp)
  · split at h
    · exact absurd h (by simp)
    · rename_i price0 hp
      refine ⟨price0, hp, ?_⟩
      simp only [Except.ok.injEq, Prod.mk.injEq] at h
      exact ⟨h.2.symm, h.1.symm ▸ (by rw [h.2])⟩

theorem lookupServicePrice_mem {db : Db} {a b : Option ℕ} {p : ℚ}
    (h : lookupServicePrice db a b = some p) :
    ∃ sp ∈ db.service_prices, sp.price = p := by
  unfold lookupServicePrice at h
  rcases Option.map_eq_some'.mp h with ⟨sp, hfind, hprice⟩
  exact ⟨sp, List.mem_of_find?_eq_some hfind, hprice⟩

/-- C2: for every wash record written by wash creation or wash update,
`commission_amount = round2(price · pct / 100)`,
`profit_amount = round2(price − commission_amount)`, and the two amounts
sum back exactly to the stored `unit_price` (prices being 2-decimal
currency amounts). -/
theorem money_invariant :
    (∀ (db : Db) (f : Faults) (rand : ℚ) (now : Day) (req : CreateReq)
       (db' : Db) (w : Wash),
      createWash db f rand now req = .ok (db', w) →
      (∀ q, req.unit_price = some q → TwoDec q) →
      (∀ sp ∈ db.service_prices, TwoDec sp.price) →
      w.commission_amount = round2 (w.unit_price * w.commission_pct / 100) ∧
      w.profit_amount = round2 (w.unit_price - w.commission_amount) ∧
      w.commission_amount + w.profit_amount = w.unit_price)
  ∧ (∀ (db : Db) (id : ℕ) (req : UpdateReq) (db' : Db) (w : Wash),
      updateWash db id req = .ok (db', w) →
      (∀ q, req.unit_price = some q → TwoDec q) →
      (∀ x ∈ db.washes, TwoDec x.unit_price) →
      w.commission_amount = round2 (w.unit_price * w.commission_pct / 100) ∧
      w.profit_amount = round2 (w.unit_price - w.commission_amount) ∧
      w.commission_amount + w.profit_amount = w.unit_price) := by
  constructor
  · intro db f rand now req db' w h hreq hsp
    obtain ⟨price0, hp, hw, _⟩ := createWash_ok_inv h
    have h2d0 : TwoDec price0 := by
      unfold resolvePrice at hp
      split at hp
      · rename_i q hq
        exact hreq price0 (hq.trans hp)
      · obtain ⟨sp, hmem, hpr⟩ := lookupServicePrice_mem hp
        exact hpr ▸ hsp sp hmem
    have h2d : TwoDec w.unit_price := by
      rw [hw]
      unfold washRecordOf
      simp only
      rcases promoEval_price_cases db f rand now req.customer_name req.customer_phone
          req.vehicle_reg req.washed_at price0 (req.commission_pct.getD 30) with hc | hc <;>
        rw [hc]
      · exact h2d0
      · exact ⟨0, by norm_num⟩
    refine ⟨?_, ?_, ?_⟩
    · rw [hw]
      unfold washRecordOf
      simp only
      exact commissionAmount_eq_round2 _ _
    · rw [hw]
      unfold washRecordOf
      simp only
      exact profitAmount_eq_round2 _ _
    · have hcw : w.commission_amount = commissionAmount w.unit_price w.commission_pct := by
        rw [hw]
        unfold washRecordOf
        simp only
      have hpw : w.profit_amount =
          profitAmount w.unit_price (commissionAmount w.unit_price w.commission_pct) := by
        rw [hw]
        unfold washRecordOf
        simp only
      rw [hcw, hpw]
      exact money_sum w.unit_price w.commission_pct h2d
  · intro db id req db' w h hreq hwashes
    unfold updateWash at h
    split at h
    · exact absurd h (by simp)
    · rename_i existing hfound
      simp only [Except.ok.injEq, Prod.mk.injEq] at h
      have hw : w = { existing with
          unit_price := req.unit_price.getD existing.unit_price,
          commission_pct := req.commission_pct.getD 30,
          commission_amount := commissionAmount (req.unit_price.getD existing.unit_price)
            (req.commission_pct.getD 30),
          profit_amount := profitAmount (req.unit_price.getD existing.unit_price)
            (commissionAmount (req.unit_price.getD existing.unit_price)
              (req.commission_pct.getD 30)),
          washed_at := req.washed_at.getD existing.washed_at } := h.2.symm
      have h2d : TwoDec (req.unit_price.getD existing.unit_price) := by
        cases hq : req.unit_price with
        | none =>
            simp only [Option.getD_none]
            exact hwashes existing (List.mem_of_find?_eq_some hfound)
        | some q =>
            simp only [Option.getD_some]
            exact hreq q hq
      refine ⟨?_, ?_, ?_⟩
      · rw [hw]
        exact commissionAmount_eq_round2 _ _
      · rw [hw]
        exact profitAmount_eq_round2 _ _
      · rw [hw]
        exact money_sum _ _ h2d

/-- Concrete database for the money-invariant witness: one configured
service price of 600.00. -/
def mwDb : Db :=
  { settings := ⟨none, none, none, none, none⟩,
    promotions := [], customers := [], washes := [],
    featured_vehicles := [], service_prices := [⟨1, 1, 600⟩],
    nextCustomerId := 0, nextWashId := 0 }

/-- Concrete request for the money-invariant witness. -/
def mwReq : CreateReq :=
  { service_id := some 1, car_type_id := some 1, staff_id := none,
    unit_price := none, washed_at := none, commission_pct := none,
    customer_name := none, customer_phone := none, vehicle_reg := none }

/-- The wash row the witness scenario produces (the money fields are
`commissionAmount 600 30 = 180` and `profitAmount 600 180 = 420`). -/
def mwWash : Wash :=
  { id := 0, customer_id := none, vehicle_reg := none, promo_id := none,
    is_free := false, washed_at := ⟨0, 0⟩, unit_price := 600,
    commission_pct := 30, commission_amount := commissionAmount 600 30,
    profit_amount := profitAmount 600 (commissionAmount 600 30) }

/-- The database the witness scenario produces. -/
def mwDbAfter : Db :=
  { mwDb with washes := [mwWash], nextWashId := 1 }

/-- Witness for C2 at a concrete creation request. -/
theorem money_invariant_witness :
    createWash mwDb noFaults 0 ⟨0, 0⟩ mwReq = .ok (mwDbAfter, mwWash) ∧
    mwWash.commission_amount + mwWash.profit_amount = mwWash.unit_price := by
  have hres : createWash mwDb noFaults 0 ⟨0, 0⟩ mwReq = .ok (mwDbAfter, mwWash) := by
    rfl
  refine ⟨hres, ?_⟩
  refine (money_invariant.1 mwDb noFaults 0 ⟨0, 0⟩ mwReq mwDbAfter mwWash hres ?_ ?_).2.2
  · intro q hq
    simp [mwReq] at hq
  · intro sp hsp
    simp only [mwDb, List.mem_singleton] at hsp
    subst hsp
    exact ⟨60000, by norm_num⟩

/-! ## Winner-registry invariant lemmas (claim C1) -/

theorem dayTaken_false_approvedAt_nil {db : RegDb} {d : String}
    (h : dayTaken db d = false) : approvedAt db d = [] := by
  unfold dayTaken at h
  unfold approvedAt
  rw [List.filter_eq_nil_iff]
  intro w hw
  simp only [List.any_eq_false] at h
  simp only [Bool.and_eq_true, not_and]
  intro hd
  exact absurd hd (h w hw)

/-- A successful route-helper insert: the pre-check saw the day free, so
the row goes in and the invariant is preserved. -/
theorem insertWinner_ok_preserves {db : RegDb} {d : String} {cid : Option ℕ}
    {reg ph nm : Option String} {uid : Option ℕ} {db' : RegDb} {w : WinnerRow}
    (hfree : dayTaken db d = false)
    (hinv : atMostOneApproved db)
    (h : insertWinner db d cid reg ph nm uid = .ok (db', w)) :
    atMostOneApproved db' ∧ w.draw_date = d ∧ w.status = .approved ∧
    db'.winners = db.winners ++ [w] := by
  have hnil : approvedAt db d = [] := dayTaken_false_approvedAt_nil hfree
  unfold insertWinner dbInsertWinner at h
  rw [hnil] at h
  simp only [List.isEmpty_nil, Bool.not_true, Bool.and_false,
    Bool.false_eq_true, if_false, Except.ok.injEq, Prod.mk.injEq] at h
  obtain ⟨hdb', hw⟩ := h
  subst hdb'
  subst hw
  refine ⟨?_, rfl, rfl, rfl⟩
  intro d'
  unfold approvedAt at hnil ⊢
  simp only [List.filter_append]
  rw [List.length_append]
  by_cases hd : d' = d
  · subst hd
    rw [hnil]
    simp
  · have hdd : (d == d') = false := by
      rw [beq_eq_false_iff_ne]
      exact fun h' => hd h'.symm
    simp only [List.filter_singleton, hdd, Bool.false_and, Bool.false_eq_true,
      if_false, List.length_nil, Nat.add_zero]
    exact hinv d'

/-- C1: every winner-inserting registry operation (approve, draw with
auto-approve, reschedule) preserves the at-most-one-APPROVED-winner-per-
date invariant; the second of two approve calls for the same date fails
with Conflict while the first winner row is untouched; and the storage
layer itself rejects an APPROVED insert for a date that already has an
APPROVED winner (the partial unique index). -/
theorem approved_winner_uniqueness :
    (∀ (db : RegDb) (s : Option String) (today : String) (cid : Option ℕ)
       (reg ph nm : Option String) (uid : Option ℕ) (db' : RegDb) (w : WinnerRow),
      atMostOneApproved db →
      approveRoute db s today cid reg ph nm uid = .ok (db', w) →
      atMostOneApproved db')
  ∧ (∀ (db : RegDb) (s : Option String) (today : String) (cands : List CandRow)
       (pick : ℕ) (auto : Bool) (uid : Option ℕ) (db' : RegDb) (r : DrawResult),
      atMostOneApproved db →
      drawRoute db s today cands pick auto uid = .ok (db', r) →
      atMostOneApproved db')
  ∧ (∀ (db : RegDb) (s : Option String) (today : String) (cid : Option ℕ)
       (reg ph nm : Option String) (uid : Option ℕ) (db' : RegDb) (w : WinnerRow),
      atMostOneApproved db →
      rescheduleRoute db s today cid reg ph nm uid = .ok (db', w) →
      atMostOneApproved db')
  ∧ (∀ (db : RegDb) (s : Option String) (today : String)
       (cidX : Option ℕ) (regX phX nmX : Option String) (uidX : Option ℕ)
       (db1 : RegDb) (w1 : WinnerRow)
       (cidY : Option ℕ) (regY phY nmY : Option String) (uidY : Option ℕ),
      approveRoute db s today cidX regX phX nmX uidX = .ok (db1, w1) →
      approveRoute db1 s today cidY regY phY nmY uidY = .error .conflict ∧
      w1 ∈ db1.winners)
  ∧ (∀ (db : RegDb) (d : String) (cid : Option ℕ) (reg ph nm : Option String)
       (note : Option String) (uid : Option ℕ),
      approvedAt db d ≠ [] →
      dbInsertWinner db d cid reg ph nm .approved note uid = .error .uniqueViolation) := by
  refine ⟨?_, ?_, ?_, ?_, ?_⟩
  · intro db s today cid reg ph nm uid db' w hinv h
    unfold approveRoute at h
    split at h
    · exact absurd h (by simp)
    · rename_i hfree
      rw [Bool.not_eq_true] at hfree
      exact (insertWinner_ok_preserves hfree hinv h).1
  · intro db s today cands pick auto uid db' r hinv h
    unfold drawRoute at h
    split at h
    · simp only [Except.ok.injEq, Prod.mk.injEq] at h
      rw [← h.1]
      exact hinv
    · split at h
      · exact absurd h (by simp)
      · split at h
        · simp only [Except.ok.injEq, Prod.mk.injEq] at h
          rw [← h.1]
          exact hinv
        · split at h
          · exact absurd h (by simp)
          · rename_i hfree
            rw [Bool.not_eq_true] at hfree
            split at h
            · exact absurd h (by simp)
            · rename_i res db'' w'' hins
              simp only [Except.ok.injEq, Prod.mk.injEq] at h
              rw [← h.1]
              exact (insertWinner_ok_preserves hfree hinv hins).1
  · intro db s today cid reg ph nm uid db' w hinv h
    unfold rescheduleRoute at h
    split at h
    · exact absurd h (by simp)
    · split at h
      · exact absurd h (by simp)
      · rename_i hfree
        rw [Bool.not_eq_true] at hfree
        exact (insertWinner_ok_preserves hfree hinv h).1
  · intro db s today cidX regX phX nmX uidX db1 w1 cidY regY phY nmY uidY h
    unfold approveRoute at h
    split at h
    · exact absurd h (by simp)
    · rename_i hfree
      rw [Bool.not_eq_true] at hfree
      unfold insertWinner dbInsertWinner at h
      rw [dayTaken_false_approvedAt_nil hfree] at h
      simp only [List.isEmpty_nil, Bool.not_true, Bool.and_false,
        Bool.false_eq_true, if_false, Except.ok.injEq, Prod.mk.injEq] at h
      obtain ⟨hdb1, hw1⟩ := h
      constructor
      · unfold approveRoute
        have htaken : dayTaken db1 (isoDay s today) = true := by
          unfold dayTaken
          rw [← hdb1]
          simp
        rw [htaken]
        simp
      · rw [← hdb1, ← hw1]
        simp
  · intro db d cid reg ph nm note uid hne
    unfold dbInsertWinner
    have : (approvedAt db d).isEmpty = false := by
      rw [List.isEmpty_eq_false_iff_exists_mem]
      cases hap : approvedAt db d with
      | nil => exact absurd hap hne
      | cons a l => exact ⟨a, by simp⟩
    rw [this]
    simp

/-- Empty registry for the C1 witness. -/
def c1Db0 : RegDb := { winners := [], candidates := [], nextId := 0 }

/-- The winner row the first approve writes. -/
def c1W1 : WinnerRow :=
  { id := 0, draw_date := "2025-11-10", customer_id := some 1,
    vehicle_reg := none, customer_phone := none, customer_name := none,
    status := .approved, note := none, created_by := none }

/-- The registry after the first approve. -/
def c1Db1 : RegDb := { winners := [c1W1], candidates := [], nextId := 1 }

/-- Witness for C1: after a concrete first approve for 2025-11-10, a
second approve for the same date conflicts and the winner row stands. -/
theorem approved_winner_uniqueness_witness :
    approveRoute c1Db1 (some "2025-11-10") "2025-11-10"
      (some 2) none none none none = .error .conflict ∧
    c1W1 ∈ c1Db1.winners := by
  have h1 : approveRoute c1Db0 (some "2025-11-10") "2025-11-10"
      (some 1) none none none none = .ok (c1Db1, c1W1) := by decide
  exact approved_winner_uniqueness.2.2.2.1 c1Db0 (some "2025-11-10")
    "2025-11-10" (some 1) none none none none c1Db1 c1W1
    (some 2) none none none none h1

/-! ## Revocation (claim C7) -/

/-- C7: `revoke_daily_free_winner` turns an existing winner REVOKED and
appends the reason to the audit note, fails with NotFound when the
winner id is absent, and — because the APPROVED-winner check of the
approval function ignores REVOKED rows — a subsequent approval of a
candidate for the same date succeeds. -/
theorem revoke_then_reapprove :
    (∀ (db : RegDb) (wid : ℕ) (reason : Option String) (w : WinnerRow),
      db.winners.find? (fun x => x.id == wid) = some w →
      ∃ db' w', revokeWinnerFn db wid reason = .ok (db', w') ∧
        w'.id = w.id ∧ w'.status = .revoked ∧
        w'.note = some ((w.note.getD "") ++
          (match reason with
           | some r => "\n[REVOCATION] " ++ r
           | none => "")) ∧
        db'.candidates = db.candidates)
  ∧ (∀ (db : RegDb) (wid : ℕ) (reason : Option String),
      db.winners.find? (fun x => x.id == wid) = none →
      revokeWinnerFn db wid reason = .error .notFound)
  ∧ (∀ (db : RegDb) (wid : ℕ) (reason : Option String) (w : WinnerRow)
       (cid : ℕ) (cand : CandRow) (approver : Option ℕ) (note : Option String)
       (db' : RegDb) (w' : WinnerRow),
      db.winners.find? (fun x => x.id == wid) = some w →
      (∀ x ∈ db.winners, x.draw_date = w.draw_date → x.status = .approved → x.id = wid) →
      db.candidates.find? (fun c => c.id == cid) = some cand →
      revokeWinnerFn db wid reason = .ok (db', w') →
      ∃ db'' w'', approveCandidateFn db' (some cid) (some w.draw_date) approver note =
        .ok (db'', w'') ∧ w''.draw_date = w.draw_date ∧ w''.status = .approved) := by
  refine ⟨?_, ?_, ?_⟩
  · intro db wid reason w hfind
    unfold revokeWinnerFn
    rw [hfind]
    exact ⟨_, _, rfl, rfl, rfl, rfl, rfl⟩
  · intro db wid reason hfind
    unfold revokeWinnerFn
    rw [hfind]
  · intro db wid reason w cid cand approver note db' w' hfind honly hcand hrev
    unfold revokeWinnerFn at hrev
    rw [hfind] at hrev
    simp only [Except.ok.injEq, Prod.mk.injEq] at hrev
    obtain ⟨hdb', _⟩ := hrev
    have hcands : db'.candidates = db.candidates := by
      rw [← hdb']
    have hap : approvedAt db' w.draw_date = [] := by
      rw [← hdb']
      unfold approvedAt
      simp only
      rw [List.filter_eq_nil_iff]
      intro x hx
      rcases List.mem_map.mp hx with ⟨y, hy, hxy⟩
      by_cases hid : (y.id == wid) = true
      · rw [if_pos hid] at hxy
        subst hxy
        simp
      · rw [if_neg hid] at hxy
        subst hxy
        simp only [Bool.and_eq_true, beq_iff_eq, not_and]
        intro hdd hst
        exact absurd (beq_iff_eq.mpr (honly y hy hdd hst)) hid
    unfold approveCandidateFn
    dsimp only
    rw [hcands, hcand]
    simp only [Option.getD_some, hap, List.isEmpty_nil, Bool.not_true,
      Bool.false_eq_true, if_false]
    unfold dbInsertWinner
    rw [hap]
    simp only [List.isEmpty_nil, Bool.not_true, Bool.and_false,
      Bool.false_eq_true, if_false]
    exact ⟨_, _, rfl, rfl, rfl⟩

/-- Approved winner for the C7 witness. -/
def c7W : WinnerRow :=
  { id := 0, draw_date := "2025-11-10", customer_id := some 1,
    vehicle_reg := none, customer_phone := none, customer_name := none,
    status := .approved, note := none, created_by := none }

/-- Candidate for the C7 witness. -/
def c7Cand : CandRow :=
  { id := 1, draw_date := "2025-11-10", customer_id := some 2,
    vehicle_reg := some "KBB1", customer_phone := none, customer_name := none }

/-- Registry for the C7 witness. -/
def c7Db : RegDb := { winners := [c7W], candidates := [c7Cand], nextId := 2 }

/-- The revoked row the C7 witness's revocation produces. -/
def c7WRev : WinnerRow :=
  { c7W with status := .revoked, note := some ("" ++ ("\n[REVOCATION] " ++ "fraud")) }

/-- Registry after the C7 witness's revocation. -/
def c7DbRev : RegDb := { winners := [c7WRev], candidates := [c7Cand], nextId := 2 }

/-- Witness for C7: revoking the 2025-11-10 winner and approving the
pending candidate for the same date succeeds. -/
theorem revoke_then_reapprove_witness :
    ∃ db'' w'', approveCandidateFn c7DbRev (some 1) (some "2025-11-10") none none =
      .ok (db'', w'') ∧ w''.draw_date = "2025-11-10" ∧ w''.status = .approved := by
  have hrev : revokeWinnerFn c7Db 0 (some "fraud") = .ok (c7DbRev, c7WRev) := by
    decide
  exact revoke_then_reapprove.2.2 c7Db 0 (some "fraud") c7W 1 c7Cand none none
    c7DbRev c7WRev (by decide) (by decide) (by decide) hrev

/-! ## Reschedule (claim C8) -/

/-- Approved winner occupying the target date in the C8 counterexample. -/
def c8W : WinnerRow :=
  { id := 0, draw_date := "2025-11-10", customer_id := some 1,
    vehicle_reg := none, customer_phone := none, customer_name := none,
    status := .approved, note := none, created_by := none }

/-- The candidate being rescheduled in the C8 counterexample. -/
def c8Cand : CandRow :=
  { id := 1, draw_date := "2025-11-09", customer_id := some 7,
    vehicle_reg := some "KAA1", customer_phone := none, customer_name := none }

/-- Registry for the C8 counterexample. -/
def c8Db : RegDb := { winners := [c8W], candidates := [c8Cand], nextId := 2 }

/-- The candidate row after the move. -/
def c8CandMoved : CandRow := { c8Cand with draw_date := "2025-11-10" }

/-- Registry after the C8 counterexample's reschedule. -/
def c8DbAfter : RegDb := { c8Db with candidates := [c8CandMoved] }

/-- C8 counterexample: rescheduling candidate 1 to 2025-11-10 — a date
that already has an APPROVED winner — does not fail with Conflict: the
storage function succeeds, moves (modifies) the original candidate row,
and writes no winner row. -/
theorem reschedule_counterexample :
    (approvedAt c8Db "2025-11-10").length = 1 ∧
    rescheduleCandidateFn c8Db (some 1) (some "2025-11-10") =
      .ok (c8DbAfter, c8CandMoved) ∧
    c8DbAfter.winners = c8Db.winners ∧
    c8DbAfter.candidates ≠ c8Db.candidates := by
  refine ⟨by decide, by decide, by decide, by decide⟩

theorem approvedAt_ne_nil_dayTaken {db : RegDb} {d : String}
    (h : approvedAt db d ≠ []) : dayTaken db d = true := by
  unfold approvedAt at h
  unfold dayTaken
  cases hf : List.filter (fun w => w.draw_date == d && w.status == WStatus.approved)
      db.winners with
  | nil => exact absurd hf h
  | cons a l =>
      have ha : a ∈ List.filter (fun w => w.draw_date == d && w.status == WStatus.approved)
          db.winners := by
        rw [hf]
        simp
      rw [List.mem_filter] at ha
      rw [List.any_eq_true]
      exact ⟨a, ha.1, by
        have := ha.2
        simp only [Bool.and_eq_true] at this
        exact this.1⟩

/-- C8 amended: the storage reschedule function conflicts exactly on a
duplicate candidate with the same identity at the target date and
otherwise moves the candidate row (writing no winner and checking no
winner); the HTTP reschedule route conflicts whenever the target date
has any winner row (in particular an APPROVED one) and otherwise
inserts a new APPROVED winner row without touching the candidates. -/
theorem reschedule_amended :
    (∀ (db : RegDb) (cid : ℕ) (nd : String) (cand c2 : CandRow),
      db.candidates.find? (fun c => c.id == cid) = some cand →
      c2 ∈ db.candidates → c2.draw_date = nd →
      c2.customer_id = cand.customer_id →
      sqlNormReg c2.vehicle_reg = sqlNormReg cand.vehicle_reg →
      c2.id ≠ cand.id →
      rescheduleCandidateFn db (some cid) (some nd) = .error .conflict)
  ∧ (∀ (db : RegDb) (cid : ℕ) (nd : String) (cand : CandRow),
      db.candidates.find? (fun c => c.id == cid) = some cand →
      (∀ c2 ∈ db.candidates, c2.draw_date = nd →
        c2.customer_id = cand.customer_id →
        sqlNormReg c2.vehicle_reg = sqlNormReg cand.vehicle_reg →
        c2.id = cand.id) →
      ∃ db', rescheduleCandidateFn db (some cid) (some nd) =
        .ok (db', { cand with draw_date := nd }) ∧
        db'.winners = db.winners)
  ∧ (∀ (db : RegDb) (to_date : Option String) (today : String) (cid : Option ℕ)
       (reg ph nm : Option String) (uid : Option ℕ),
      matchIsoDay today = true →
      approvedAt db (isoDay to_date today) ≠ [] →
      rescheduleRoute db to_date today cid reg ph nm uid = .error .conflict)
  ∧ (∀ (db : RegDb) (to_date : Option String) (today : String) (cid : Option ℕ)
       (reg ph nm : Option String) (uid : Option ℕ) (db' : RegDb) (w : WinnerRow),
      rescheduleRoute db to_date today cid reg ph nm uid = .ok (db', w) →
      db'.winners = db.winners ++ [w] ∧ db'.candidates = db.candidates ∧
      w.draw_date = isoDay to_date today ∧ w.status = .approved) := by
  refine ⟨?_, ?_, ?_, ?_⟩
  · intro db cid nd cand c2 hfind hmem hdate hcust hreg hid
    unfold rescheduleCandidateFn
    dsimp only
    rw [hfind]
    dsimp only
    have hdup : (db.candidates.find? (fun c =>
        c.draw_date == nd && c.customer_id == cand.customer_id &&
        sqlNormReg c.vehicle_reg == sqlNormReg cand.vehicle_reg &&
        c.id != cand.id)).isSome = true := by
      rw [List.find?_isSome]
      refine ⟨c2, hmem, ?_⟩
      simp only [Bool.and_eq_true, beq_iff_eq, bne_iff_ne]
      exact ⟨⟨⟨hdate, hcust⟩, hreg⟩, hid⟩
    cases hf : db.candidates.find? (fun c =>
        c.draw_date == nd && c.customer_id == cand.customer_id &&
        sqlNormReg c.vehicle_reg == sqlNormReg cand.vehicle_reg &&
        c.id != cand.id) with
    | none => rw [hf] at hdup; simp at hdup
    | some x => rfl
  · intro db cid nd cand hfind hnone
    unfold rescheduleCandidateFn
    dsimp only
    rw [hfind]
    dsimp only
    have hdup : db.candidates.find? (fun c =>
        c.draw_date == nd && c.customer_id == cand.customer_id &&
        sqlNormReg c.vehicle_reg == sqlNormReg cand.vehicle_reg &&
        c.id != cand.id) = none := by
      rw [List.find?_eq_none]
      intro c2 hmem
      simp only [Bool.and_eq_true, beq_iff_eq, bne_iff_ne, not_and]
      intro hd hc
      exact hc (hnone c2 hmem hd.1.1 hd.1.2 hd.2)
    rw [hdup]
    exact ⟨_, rfl, rfl⟩
  · intro db to_date today cid reg ph nm uid htoday hap
    unfold rescheduleRoute
    have h1 : (isoDay to_date today == "") = false := by
      rw [beq_eq_false_iff_ne]
      exact matchIsoDay_ne_empty (matchIsoDay_isoDay htoday)
    rw [h1, approvedAt_ne_nil_dayTaken hap]
    simp
  · intro db to_date today cid reg ph nm uid db' w h
    unfold rescheduleRoute at h
    split at h
    · exact absurd h (by simp)
    · split at h
      · exact absurd h (by simp)
      · unfold insertWinner dbInsertWinner at h
        split at h
        · exact absurd h (by simp)
        · simp only [Except.ok.injEq, Prod.mk.injEq] at h
          obtain ⟨hdb', hw⟩ := h
          refine ⟨?_, ?_, ?_, ?_⟩
          · rw [← hdb', ← hw]
          · rw [← hdb']
          · rw [← hw]
          · rw [← hw]

/-- Empty registry for the C8 amended witness. -/
def c8EmptyDb : RegDb := { winners := [], candidates := [], nextId := 0 }

/-- Witness for the amended C8: rescheduling to a free date creates a
new APPROVED winner row for that date and leaves candidates untouched. -/
theorem reschedule_amended_witness :
    ∃ (db' : RegDb) (w : WinnerRow),
      rescheduleRoute c8EmptyDb (some "2025-11-12") "2025-11-12"
        (some 3) none none none none = .ok (db', w) ∧
      db'.winners = c8EmptyDb.winners ++ [w] ∧
      db'.candidates = c8EmptyDb.candidates ∧
      w.draw_date = "2025-11-12" ∧ w.status = .approved := by
  cases hres : rescheduleRoute c8EmptyDb (some "2025-11-12") "2025-11-12"
      (some 3) none none none none with
  | error e =>
      exfalso
      cases e <;> revert hres <;> decide
  | ok r =>
      have := reschedule_amended.2.2.2 c8EmptyDb (some "2025-11-12") "2025-11-12"
        (some 3) none none none none r.1 r.2 (by rw [hres])
      have hiso : isoDay (some "2025-11-12") "2025-11-12" = "2025-11-12" := by decide
      exact ⟨r.1, r.2, rfl, this.1, this.2.1, hiso ▸ this.2.2.1, this.2.2.2⟩

/-! ## Wash creation without a customer identity (claim C10) -/

/-- With both phone and plate falsy, the promo evaluation is a no-op:
no customer is resolved or created, no track can grant, the database is
untouched. -/
theorem promoEval_no_identity (db : Db) (f : Faults) (rand : ℚ) (now : Day)
    (name phone reg : Option String) (washed : Option Day) (price0 pct : ℚ)
    (hp : jsFalsyStr phone = true) (hr : jsFalsyStr reg = true) :
    promoEval db f rand now name phone reg washed price0 pct =
      initPromoState db price0 pct := by
  have hup : upsertStep f name phone reg (initPromoState db price0 pct) =
      .inl (initPromoState db price0 pct) ∨
      upsertStep f name phone reg (initPromoState db price0 pct) =
      .inr (initPromoState db price0 pct) := by
    unfold upsertStep upsertCustomer
    rw [hp, hr]
    split
    · exact Or.inl rfl
    · exact Or.inr rfl
  have hfs : featuredStep f reg washed now (initPromoState db price0 pct) =
      .inl (initPromoState db price0 pct) ∨
      featuredStep f reg washed now (initPromoState db price0 pct) =
      .inr (initPromoState db price0 pct) := by
    unfold featuredStep isVehicleFeaturedForMonth
    rw [hr]
    split
    · exact Or.inl rfl
    · exact Or.inr rfl
  have hl : loyaltyStep f washed now (initPromoState db price0 pct) =
      .inr (initPromoState db price0 pct) := rfl
  have hrs : randomStep f rand now (initPromoState db price0 pct) =
      .inl (initPromoState db price0 pct) ∨
      randomStep f rand now (initPromoState db price0 pct) =
      .inr (initPromoState db price0 pct) := by
    unfold randomStep
    simp only [initPromoState, Option.isSome_none, Bool.and_false,
      Bool.not_false, if_true, Bool.false_eq_true, if_false]
    split
    · exact Or.inl rfl
    · exact Or.inr rfl
  unfold promoEval promoTry
  rcases hup with hu | hu <;> rw [hu] <;> simp only [pthen]
  · rfl
  · rcases hfs with hf2 | hf2 <;> rw [hf2] <;> simp only [pthen]
    · rfl
    · rw [hl]
      simp only [pthen]
      rcases hrs with hr2 | hr2 <;> rw [hr2] <;> rfl

/-- The wash insert itself never fails once the ids are present and a
price resolves — in particular, independently of any promo fault. -/
theorem createWash_ok_of_valid (db : Db) (f : Faults) (rand : ℚ) (now : Day)
    (req : CreateReq)
    (hs : req.service_id.isNone = false) (hc : req.car_type_id.isNone = false)
    {p : ℚ} (hp : resolvePrice db req = some p) :
    ∃ db' w, createWash db f rand now req = .ok (db', w) := by
  unfold createWash
  rw [hs, hc, hp]
  simp only [Bool.or_self, Bool.false_eq_true, if_false]
  exact ⟨_, _, rfl⟩

/-- C10: a wash-creation request with neither phone nor plate resolves
no customer identity (and creates or modifies no customer record), the
wash is still created and carries a null customer reference, the visit
counter of no customer changes, and no reward track — loyalty and
random in particular — can grant. -/
theorem no_identity_no_side_effects (db : Db) (f : Faults) (rand : ℚ)
    (now : Day) (req : CreateReq)
    (hphone : jsFalsyStr req.customer_phone = true)
    (hreg : jsFalsyStr req.vehicle_reg = true) :
    (∀ {p : ℚ}, req.service_id.isNone = false → req.car_type_id.isNone = false →
      resolvePrice db req = some p →
      ∃ db' w, createWash db f rand now req = .ok (db', w))
  ∧ (∀ (db' : Db) (w : Wash), createWash db f rand now req = .ok (db', w) →
      w.customer_id = none ∧ w.is_free = false ∧ w.promo_id = none ∧
      db'.customers = db.customers)
  ∧ (∀ price0 pct,
      (promoEval db f rand now req.customer_name req.customer_phone
        req.vehicle_reg req.washed_at price0 pct).track = none ∧
      (promoEval db f rand now req.customer_name req.customer_phone
        req.vehicle_reg req.washed_at price0 pct).customerId = none) := by
  refine ⟨?_, ?_, ?_⟩
  · intro p hs hc hp
    exact createWash_ok_of_valid db f rand now req hs hc hp
  · intro db' w h
    obtain ⟨price0, hp, hw, hdb'⟩ := createWash_ok_inv h
    rw [promoEval_no_identity db f rand now req.customer_name req.customer_phone
      req.vehicle_reg req.washed_at price0 (req.commission_pct.getD 30)
      hphone hreg] at hw hdb'
    subst hw
    subst hdb'
    exact ⟨rfl, rfl, rfl, rfl⟩
  · intro price0 pct
    rw [promoEval_no_identity db f rand now req.customer_name req.customer_phone
      req.vehicle_reg req.washed_at price0 pct hphone hreg]
    exact ⟨rfl, rfl⟩

/-- Witness for C10 at a concrete identity-free request. -/
theorem no_identity_no_side_effects_witness :
    ∃ db' w, createWash mwDb noFaults 0 ⟨0, 0⟩ mwReq = .ok (db', w) ∧
      w.customer_id = none ∧ w.is_free = false ∧ w.promo_id = none ∧
      db'.customers = mwDb.customers := by
  obtain ⟨db', w, h⟩ :=
    (no_identity_no_side_effects mwDb noFaults 0 ⟨0, 0⟩ mwReq
      (by decide) (by decide)).1 (p := 600) (by decide) (by decide) (by decide)
  obtain ⟨h1, h2, h3, h4⟩ :=
    (no_identity_no_side_effects mwDb noFaults 0 ⟨0, 0⟩ mwReq
      (by decide) (by decide)).2.1 db' w h
  exact ⟨db', w, h, h1, h2, h3, h4⟩

/-! ## Degradation on promo-evaluation errors (claim C6) -/

/-- A twelve-wash history for customer 0 in month 100. -/
def c6PrevWash : Wash :=
  { id := 0, customer_id := some 0, vehicle_reg := none, promo_id := none,
    is_free := false, washed_at := ⟨100, 1⟩, unit_price := 600,
    commission_pct := 30, commission_amount := 180, profit_amount := 420 }

/-- Database for the C6 counterexample: a customer whose 13th wash of
the month is due. -/
def c6Db : Db :=
  { settings := ⟨none, none, none, none, none⟩,
    promotions := [],
    customers := [⟨0, none, some "0700", none, 5⟩],
    washes := List.replicate 12 c6PrevWash,
    featured_vehicles := [], service_prices := [],
    nextCustomerId := 1, nextWashId := 100 }

/-- Only the loyalty promo-id lookup throws. -/
def c6Faults : Faults :=
  { noFaults with loyaltyPromo := true }

/-- Request for the C6 counterexample: proposed price 600, caller
commission 30. -/
def c6Req : CreateReq :=
  { service_id := some 1, car_type_id := some 1, staff_id := none,
    unit_price := some 600, washed_at := some ⟨100, 5⟩,
    commission_pct := some 30, customer_name := none,
    customer_phone := some "0700", vehicle_reg := none }

/-- The wash the C6 counterexample writes: not free, but at price 0 and
commission percentage 0 — not at the proposed 600/30. -/
def c6Wash : Wash :=
  { id := 100, customer_id := some 0, vehicle_reg := none,
    promo_id := none, is_free := false, washed_at := ⟨100, 5⟩,
    unit_price := 0, commission_pct := 0,
    commission_amount := commissionAmount 0 0,
    profit_amount := profitAmount 0 (commissionAmount 0 0) }

/-- Database after the C6 counterexample's creation. -/
def c6DbAfter : Db :=
  { c6Db with
      customers := [⟨0, none, some "0700", none, 6⟩],
      washes := List.replicate 12 c6PrevWash ++ [c6Wash],
      nextWashId := 101 }

/-- C6 counterexample: the loyalty promo-id lookup throws after the
loyalty grant already zeroed the locals; the catch clears only the free
flag, so the wash is created non-free at price 0 with commission 0 —
not at the proposed price with the default commission percentage. -/
theorem promo_error_degrade_counterexample :
    createWash c6Db c6Faults 0 ⟨100, 5⟩ c6Req = .ok (c6DbAfter, c6Wash) ∧
    c6Req.unit_price = some 600 ∧ c6Req.commission_pct = some 30 ∧
    c6Wash.is_free = false ∧ c6Wash.unit_price = 0 ∧
    c6Wash.commission_pct = 0 := by
  exact ⟨rfl, rfl, rfl, rfl, rfl, rfl⟩

/-- C6 amended: any error during reward evaluation is swallowed — wash
creation still succeeds and the wash is marked not-free — but the
handler's catch does not restore the price or the commission
percentage: they stay whatever the locals held at the throw. When no
track had granted before the throw that is the proposed price and the
caller's commission percentage; an error thrown by the loyalty promo-id
lookup, after the grant, leaves price 0 and commission 0. -/
theorem promo_error_degrade_amended :
    (∀ (db : Db) (f : Faults) (rand : ℚ) (now : Day) (req : CreateReq) {p : ℚ},
      req.service_id.isNone = false → req.car_type_id.isNone = false →
      resolvePrice db req = some p →
      ∃ db' w, createWash db f rand now req = .ok (db', w))
  ∧ (∀ (db : Db) (f : Faults) (rand : ℚ) (now : Day) (n p r : Option String)
       (washed : Option Day) (price0 pct : ℚ) (e : PromoState),
      promoTry db f rand now n p r washed price0 pct = .inl e →
      (promoEval db f rand now n p r washed price0 pct).isFree = false ∧
      (promoEval db f rand now n p r washed price0 pct).price = e.price ∧
      (promoEval db f rand now n p r washed price0 pct).commissionPctEffective =
        e.commissionPctEffective)
  ∧ (∀ (db : Db) (f : Faults) (rand : ℚ) (now : Day) (n p r : Option String)
       (washed : Option Day) (price0 pct : ℚ) (e : PromoState),
      promoTry db f rand now n p r washed price0 pct = .inl e →
      e.isFree = false →
      e.price = price0 ∧ e.commissionPctEffective = pct) := by
  refine ⟨?_, ?_, ?_⟩
  · intro db f rand now req p hs hc hp
    exact createWash_ok_of_valid db f rand now req hs hc hp
  · intro db f rand now n p r washed price0 pct e h
    rw [promoEval_inl h]
    exact ⟨rfl, rfl, rfl⟩
  · intro db f rand now n p r washed price0 pct e h hfree
    have hout : outState (promoTry db f rand now n p r washed price0 pct) = e := by
      rw [h]
      rfl
    have := (promoTry_out_cases db f rand now n p r washed price0 pct).1
    rw [hout] at this
    exact this hfree

/-- The throw state of the C6 scenario: the loyalty grant had already
zeroed price and commission when the promo-id lookup threw. -/
def c6Throw : PromoState :=
  { customerId := some 0, isFree := true, price := 0,
    commissionPctEffective := 0, promoId := none,
    track := some Track.loyalty, db := c6Db }

/-- Witness for the amended C6: with an upsert fault the evaluation
degrades to the proposed price and the caller's percentage, and with
the loyalty-promo fault the wash still gets created. -/
theorem promo_error_degrade_amended_witness :
    (∃ db' w, createWash c6Db c6Faults 0 ⟨100, 5⟩ c6Req = .ok (db', w)) ∧
    (promoEval c6Db c6Faults 0 ⟨100, 5⟩ none (some "0700") none
      (some ⟨100, 5⟩) 600 30).isFree = false ∧
    (promoEval c6Db ⟨true, false, false, false, false, false, false, false,
      false, false, false⟩ 0 ⟨100, 5⟩ none (some "0700") none
      (some ⟨100, 5⟩) 600 30).price = 600 := by
  refine ⟨?_, ?_, ?_⟩
  · exact promo_error_degrade_amended.1 c6Db c6Faults 0 ⟨100, 5⟩ c6Req
      (p := 600) (by decide) (by decide) (by decide)
  · exact (promo_error_degrade_amended.2.1 c6Db c6Faults 0 ⟨100, 5⟩ none
      (some "0700") none (some ⟨100, 5⟩) 600 30 c6Throw rfl).1
  · have h := (promo_error_degrade_amended.2.1 c6Db
      ⟨true, false, false, false, false, false, false, false, false, false, false⟩
      0 ⟨100, 5⟩ none (some "0700") none (some ⟨100, 5⟩) 600 30
      (initPromoState c6Db 600 30) rfl).2.1
    rw [h]
    rfl

/-! ## Loyalty track (claim C3) -/

/-- A state that has not granted is still the untouched post-upsert
state: its `track` is `none` and its `isFree` flag is false. -/
theorem state_before_loyalty {db : Db} {price0 pct : ℚ}
    {name phone reg : Option String} {washed : Option Day} {now : Day}
    {s1 s2 : PromoState}
    (hs1 : upsertStep noFaults name phone reg (initPromoState db price0 pct) = .inr s1)
    (hs2 : featuredStep noFaults reg washed now s1 = .inr s2)
    (hnf : s2.isFree = false) :
    s2.track = none := by
  obtain ⟨cid, db', h1⟩ := upsertStep_out hs1
  simp only [outState] at h1
  rcases featuredStep_out hs2 with h2 | ⟨fp, h2⟩ <;> simp only [outState] at h2
  · rw [h2, h1]
    rfl
  · rw [h2] at hnf
    simp at hnf

/-- C3: with a resolved customer identity and the featured track not
granting, the loyalty track grants a free wash (is_free, price 0,
commission 0) exactly when `(count + 1) % 13 = 0`, `count` being the
customer's washes in the wash's calendar month; the promo reference is
whatever the (possibly inactive, hence absent) loyalty promotion lookup
returns, and the free status is granted even when it is absent. -/
theorem loyalty_thirteenth (db : Db) (rand : ℚ) (now : Day)
    (name phone reg : Option String) (washed : Option Day) (price0 pct : ℚ)
    (s1 s2 : PromoState)
    (hs1 : upsertStep noFaults name phone reg (initPromoState db price0 pct) = .inr s1)
    (hs2 : featuredStep noFaults reg washed now s1 = .inr s2)
    (hcid : s2.customerId.isSome = true)
    (hnf : s2.isFree = false) :
    ((promoEval db noFaults rand now name phone reg washed price0 pct).track =
        some Track.loyalty ↔
      (countCustomerWashesThisMonth s2.db s2.customerId washed now + 1) % 13 = 0)
    ∧ ((countCustomerWashesThisMonth s2.db s2.customerId washed now + 1) % 13 = 0 →
        (promoEval db noFaults rand now name phone reg washed price0 pct).isFree = true ∧
        (promoEval db noFaults rand now name phone reg washed price0 pct).price = 0 ∧
        (promoEval db noFaults rand now name phone reg washed price0 pct).commissionPctEffective = 0 ∧
        (promoEval db noFaults rand now name phone reg washed price0 pct).promoId =
          getLoyaltyPromoId s2.db) := by
  have htr : s2.track = none := state_before_loyalty hs1 hs2 hnf
  unfold promoEval promoTry
  rw [hs1]
  simp only [pthen]
  rw [hs2]
  simp only [pthen]
  by_cases h13 : ((countCustomerWashesThisMonth s2.db s2.customerId washed now + 1) % 13 == 0) = true
  · have hloy : loyaltyStep noFaults washed now s2 =
        .inr { s2 with
          isFree := true
          price := 0
          commissionPctEffective := 0
          track := some Track.loyalty
          promoId := getLoyaltyPromoId s2.db } := by
      unfold loyaltyStep
      rw [hnf, hcid]
      simp only [Bool.not_false, Bool.and_self, if_true, h13, noFaults,
        Bool.false_eq_true, if_false]
    rw [hloy]
    simp only [pthen]
    have hrnd : randomStep noFaults rand now
        { s2 with
          isFree := true
          price := 0
          commissionPctEffective := 0
          track := some Track.loyalty
          promoId := getLoyaltyPromoId s2.db } =
        .inr { s2 with
          isFree := true
          price := 0
          commissionPctEffective := 0
          track := some Track.loyalty
          promoId := getLoyaltyPromoId s2.db } := rfl
    rw [hrnd]
    simp only [beq_iff_eq] at h13
    exact ⟨by simp [h13], fun _ => ⟨rfl, rfl, rfl, rfl⟩⟩
  · have hloy : loyaltyStep noFaults washed now s2 = .inr s2 := by
      unfold loyaltyStep
      rw [hnf, hcid]
      simp only [Bool.not_false, Bool.and_self, if_true, h13, noFaults,
        Bool.false_eq_true, if_false]
    rw [hloy]
    simp only [pthen]
    simp only [beq_iff_eq] at h13
    constructor
    · constructor
      · intro htrk
        exfalso
        cases hrs : randomStep noFaults rand now s2 with
        | inl e =>
            rw [hrs] at htrk
            have h2 : e.track = some Track.loyalty := htrk
            rcases randomStep_out hrs with h | ⟨pid, h⟩ <;>
              simp only [outState] at h <;> rw [h] at h2
            · rw [htr] at h2
              cases h2
            · simp at h2
        | inr s4 =>
            rw [hrs] at htrk
            have h2 : s4.track = some Track.loyalty := htrk
            rcases randomStep_out hrs with h | ⟨pid, h⟩ <;>
              simp only [outState] at h <;> rw [h] at h2
            · rw [htr] at h2
              cases h2
            · simp at h2
      · intro hc
        exact absurd hc h13
    · intro hc
      exact absurd hc h13

/-- Customer history for the C3 witness: wash number 13 of the month is
being created. -/
def c3S1 : PromoState :=
  { customerId := some 0, isFree := false, price := 600,
    commissionPctEffective := 30, promoId := none, track := none, db := c6Db }

/-- Witness for C3 at a concrete 13th wash: the loyalty track grants,
and — the loyalty promotion row being absent — the promo id is null
while the wash is still free. -/
theorem loyalty_thirteenth_witness :
    (promoEval c6Db noFaults 0 ⟨100, 5⟩ none (some "0700") none
      (some ⟨100, 5⟩) 600 30).isFree = true ∧
    (promoEval c6Db noFaults 0 ⟨100, 5⟩ none (some "0700") none
      (some ⟨100, 5⟩) 600 30).price = 0 ∧
    (promoEval c6Db noFaults 0 ⟨100, 5⟩ none (some "0700") none
      (some ⟨100, 5⟩) 600 30).promoId = none := by
  have h := (loyalty_thirteenth c6Db 0 ⟨100, 5⟩ none (some "0700") none
    (some ⟨100, 5⟩) 600 30 c3S1 c3S1 (by decide) (by decide) (by decide)
    (by decide)).2 (by decide)
  refine ⟨h.1, h.2.1, ?_⟩
  rw [h.2.2.2]
  decide

/-! ## Random promotional track (claim C4) -/

/-- Database for the C4 counterexample: the random promotion is fully
configured (enabled, probability 1, no minimum, no cap) and the
customer qualifies — but the FREE_WASH promotion row is inactive. -/
def c4Db : Db :=
  { settings := ⟨some true, some 1, some 0, some 0, none⟩,
    promotions := [⟨1, "FREE_WASH", false⟩],
    customers := [⟨0, none, some "0700", none, 5⟩],
    washes := [], featured_vehicles := [], service_prices := [],
    nextCustomerId := 1, nextWashId := 0 }

/-- Request for the C4 counterexample. -/
def c4Req : CreateReq :=
  { service_id := some 1, car_type_id := some 1, staff_id := none,
    unit_price := some 600, washed_at := some ⟨100, 5⟩,
    commission_pct := some 30, customer_name := none,
    customer_phone := some "0700", vehicle_reg := none }

/-- The (non-free) wash the C4 counterexample writes. -/
def c4Wash : Wash :=
  { id := 0, customer_id := some 0, vehicle_reg := none, promo_id := none,
    is_free := false, washed_at := ⟨100, 5⟩, unit_price := 600,
    commission_pct := 30, commission_amount := commissionAmount 600 30,
    profit_amount := profitAmount 600 (commissionAmount 600 30) }

/-- Database after the C4 counterexample's creation. -/
def c4DbAfter : Db :=
  { c4Db with
      customers := [⟨0, none, some "0700", none, 6⟩],
      washes := [c4Wash],
      nextWashId := 1 }

/-- C4 counterexample: every condition the claim lists holds —
`promo_free_enabled`, resolved customer, visits 5 ≥ minimum 0, daily
cap unset, and the draw 0 < probability 1 — yet no free wash is
granted, because the `FREE_WASH` promotion row is inactive and the code
additionally requires `getFreePromoId` to resolve. -/
theorem random_promo_counterexample :
    c4Db.settings.promo_free_enabled.getD false = true ∧
    c4Db.settings.promo_free_min_visits.getD 0 ≤ ((5 : ℕ) : ℚ) ∧
    c4Db.settings.promo_free_daily_cap.getD 0 = 0 ∧
    ((0 : ℚ) < c4Db.settings.promo_free_prob.getD 0) ∧
    getFreePromoId c4Db = none ∧
    createWash c4Db noFaults 0 ⟨100, 5⟩ c4Req = .ok (c4DbAfter, c4Wash) ∧
    c4Wash.customer_id = some 0 ∧
    c4Wash.is_free = false ∧ c4Wash.unit_price = 600 := by
  exact ⟨rfl, by decide, rfl, by decide, rfl, rfl, rfl, rfl, rfl⟩

/-- With no faults and no earlier grant, the random step is its
decision cascade with the throw branches gone. -/
theorem randomStep_noFaults (rand : ℚ) (now : Day) (s : PromoState)
    (hnf : s.isFree = false) :
    randomStep noFaults rand now s =
      (if (s.db.settings.promo_free_enabled.getD false && s.customerId.isSome) = true then
        (if s.db.settings.promo_free_min_visits.getD 0 ≤
            (((s.db.customers.find? (fun c => some c.id == s.customerId)).map
                (fun c => (c.visits_count : ℚ))).getD 0) then
          (if ((s.db.settings.promo_free_daily_cap.getD 0 == 0 ||
                decide ((countFreeToday s.db now : ℚ) <
                  s.db.settings.promo_free_daily_cap.getD 0)) &&
               decide (rand < s.db.settings.promo_free_prob.getD 0)) = true then
            (match getFreePromoId s.db with
             | some freeId =>
                 .inr { s with
                   isFree := true
                   price := 0
                   commissionPctEffective := 0
                   promoId := some freeId
                   track := some Track.random }
             | none => .inr s)
          else .inr s)
        else .inr s)
      else .inr s) := by
  unfold randomStep
  rw [hnf]
  rfl

/-- C4 amended: given that neither the featured nor the loyalty track
granted, the random track grants (free wash, price 0, commission 0,
promo = the FREE_WASH promotion) exactly when `promo_free_enabled`
holds, a customer identity is resolved, the customer's visit count
reaches the configured minimum, the daily cap is zero/unset or today's
count of free washes (of any promotion) is below it, the uniform draw
is below the configured probability, and — in addition to what the
claim lists — the FREE_WASH promotion row itself is active. -/
theorem random_promo_amended (db : Db) (rand : ℚ) (now : Day)
    (name phone reg : Option String) (washed : Option Day) (price0 pct : ℚ)
    (s1 s2 s3 : PromoState)
    (hs1 : upsertStep noFaults name phone reg (initPromoState db price0 pct) = .inr s1)
    (hs2 : featuredStep noFaults reg washed now s1 = .inr s2)
    (hs3 : loyaltyStep noFaults washed now s2 = .inr s3)
    (hnf : s3.isFree = false) :
    ((promoEval db noFaults rand now name phone reg washed price0 pct).track =
        some Track.random ↔
      (s3.db.settings.promo_free_enabled.getD false = true ∧
       s3.customerId.isSome = true ∧
       s3.db.settings.promo_free_min_visits.getD 0 ≤
         (((s3.db.customers.find? (fun c => some c.id == s3.customerId)).map
             (fun c => (c.visits_count : ℚ))).getD 0) ∧
       (s3.db.settings.promo_free_daily_cap.getD 0 = 0 ∨
        ((countFreeToday s3.db now : ℚ) <
          s3.db.settings.promo_free_daily_cap.getD 0)) ∧
       rand < s3.db.settings.promo_free_prob.getD 0 ∧
       (getFreePromoId s3.db).isSome = true))
    ∧ ((promoEval db noFaults rand now name phone reg washed price0 pct).track =
          some Track.random →
        (promoEval db noFaults rand now name phone reg washed price0 pct).isFree = true ∧
        (promoEval db noFaults rand now name phone reg washed price0 pct).price = 0 ∧
        (promoEval db noFaults rand now name phone reg washed price0 pct).commissionPctEffective = 0 ∧
        (promoEval db noFaults rand now name phone reg washed price0 pct).promoId =
          getFreePromoId s3.db) := by
  have hs3' : s3 = s2 := by
    rcases loyaltyStep_out hs3 with h | ⟨pid, h⟩ <;> simp only [outState] at h
    · exact h
    · rw [h] at hnf
      simp at hnf
  have htr : s3.track = none := by
    rw [hs3']
    refine state_before_loyalty hs1 hs2 ?_
    rw [← hs3']
    exact hnf
  unfold promoEval promoTry
  rw [hs1]
  simp only [pthen]
  rw [hs2]
  simp only [pthen]
  rw [hs3]
  simp only [pthen]
  rw [randomStep_noFaults rand now s3 hnf]
  by_cases hcond : (s3.db.settings.promo_free_enabled.getD false &&
      s3.customerId.isSome) = true
  · rw [if_pos hcond]
    by_cases hv : s3.db.settings.promo_free_min_visits.getD 0 ≤
        (((s3.db.customers.find? (fun c => some c.id == s3.customerId)).map
            (fun c => (c.visits_count : ℚ))).getD 0)
    · rw [if_pos hv]
      by_cases hu : ((s3.db.settings.promo_free_daily_cap.getD 0 == 0 ||
            decide ((countFreeToday s3.db now : ℚ) <
              s3.db.settings.promo_free_daily_cap.getD 0)) &&
          decide (rand < s3.db.settings.promo_free_prob.getD 0)) = true
      · rw [if_pos hu]
        cases hfp : getFreePromoId s3.db with
        | some fid =>
            refine ⟨⟨?_, ?_⟩, ?_⟩
            · intro _
              simp only [Bool.and_eq_true] at hcond
              simp only [Bool.and_eq_true, Bool.or_eq_true, beq_iff_eq,
                decide_eq_true_iff] at hu
              exact ⟨hcond.1, hcond.2, hv, hu.1, hu.2, rfl⟩
            · intro _
              rfl
            · intro _
              exact ⟨rfl, rfl, rfl, rfl⟩
        | none =>
            refine ⟨⟨?_, ?_⟩, ?_⟩
            · intro htrk
              exfalso
              have h2 : s3.track = some Track.random := htrk
              rw [htr] at h2
              cases h2
            · intro hrhs
              exfalso
              simpa using hrhs.2.2.2.2.2
            · intro htrk
              exfalso
              have h2 : s3.track = some Track.random := htrk
              rw [htr] at h2
              cases h2
      · rw [if_neg hu]
        refine ⟨⟨?_, ?_⟩, ?_⟩
        · intro htrk
          exfalso
          have h2 : s3.track = some Track.random := htrk
          rw [htr] at h2
          cases h2
        · intro hrhs
          exfalso
          apply hu
          simp only [Bool.and_eq_true, Bool.or_eq_true, beq_iff_eq,
            decide_eq_true_iff]
          exact ⟨hrhs.2.2.2.1, hrhs.2.2.2.2.1⟩
        · intro htrk
          exfalso
          have h2 : s3.track = some Track.random := htrk
          rw [htr] at h2
          cases h2
    · rw [if_neg hv]
      refine ⟨⟨?_, ?_⟩, ?_⟩
      · intro htrk
        exfalso
        have h2 : s3.track = some Track.random := htrk
        rw [htr] at h2
        cases h2
      · intro hrhs
        exact absurd hrhs.2.2.1 hv
      · intro htrk
        exfalso
        have h2 : s3.track = some Track.random := htrk
        rw [htr] at h2
        cases h2
  · rw [if_neg hcond]
    refine ⟨⟨?_, ?_⟩, ?_⟩
    · intro htrk
      exfalso
      have h2 : s3.track = some Track.random := htrk
      rw [htr] at h2
      cases h2
    · intro hrhs
      exfalso
      apply hcond
      rw [Bool.and_eq_true]
      exact ⟨hrhs.1, hrhs.2.1⟩
    · intro htrk
      exfalso
      have h2 : s3.track = some Track.random := htrk
      rw [htr] at h2
      cases h2

/-- The C4 database with the FREE_WASH promotion active. -/
def c4ActiveDb : Db :=
  { c4Db with promotions := [⟨1, "FREE_WASH", true⟩] }

/-- The post-upsert state of the C4 witness scenario. -/
def c4S1 : PromoState :=
  { customerId := some 0, isFree := false, price := 600,
    commissionPctEffective := 30, promoId := none, track := none, db := c4ActiveDb }

/-- Witness for the amended C4: same configuration as the
counterexample but with the FREE_WASH promotion active — now the
random track does grant. -/
theorem random_promo_amended_witness :
    (promoEval c4ActiveDb noFaults 0 ⟨100, 5⟩ none (some "0700") none
      (some ⟨100, 5⟩) 600 30).track = some Track.random ∧
    (promoEval c4ActiveDb noFaults 0 ⟨100, 5⟩ none (some "0700") none
      (some ⟨100, 5⟩) 600 30).isFree = true ∧
    (promoEval c4ActiveDb noFaults 0 ⟨100, 5⟩ none (some "0700") none
      (some ⟨100, 5⟩) 600 30).price = 0 := by
  have h := random_promo_amended c4ActiveDb 0 ⟨100, 5⟩ none (some "0700") none
    (some ⟨100, 5⟩) 600 30 c4S1 c4S1 c4S1 (by decide) (by decide) (by decide)
    (by decide)
  have htrk := h.1.mpr
    ⟨by decide, by decide, by decide, Or.inl (by decide), by decide, by decide⟩
  obtain ⟨h1, h2, _⟩ := h.2 htrk
  exact ⟨htrk, h1, h2⟩

/-! ## Featured-vehicle track (claim C5)

A family of concrete states, parameterised by the plate, the month, the
proposed price and percentage: a fresh database whose only promotion is
an active FEATURED_VEHICLE row and whose only featured entry is the
plate for month `M`, with `featured_free_once_per_month = true` and the
random promotion unconfigured (so no other track can grant). -/

/-- Initial database of the C5 scenario. -/
def c5Db (reg : String) (M : ℕ) (fid : ℕ) : Db :=
  { settings := ⟨none, none, none, none, some true⟩,
    promotions := [⟨fid, "FEATURED_VEHICLE", true⟩],
    customers := [], washes := [], featured_vehicles := [⟨reg, M⟩],
    service_prices := [], nextCustomerId := 0, nextWashId := 0 }

/-- Wash-creation request of the C5 scenario for day `d` of month `M`. -/
def c5Req (reg : String) (price pct : ℚ) (M d : ℕ) : CreateReq :=
  { service_id := some 1, car_type_id := some 1, staff_id := none,
    unit_price := some price, washed_at := some ⟨M, d⟩,
    commission_pct := some pct, customer_name := none,
    customer_phone := none, vehicle_reg := some reg }

/-- Customer created by the first wash of the C5 scenario. -/
def c5Cust (reg : String) : Customer :=
  { id := 0, name := none, phone := none, vehicle_reg := some reg,
    visits_count := 0 }

/-- Database after the upsert of the first wash. -/
def c5Db1 (reg : String) (M : ℕ) (fid : ℕ) : Db :=
  { c5Db reg M fid with customers := [c5Cust reg], nextCustomerId := 1 }

/-- Promo state after the upsert of the first wash. -/
def c5S1 (reg : String) (M : ℕ) (fid : ℕ) (price pct : ℚ) : PromoState :=
  { customerId := some 0, isFree := false, price := price,
    commissionPctEffective := pct, promoId := none, track := none,
    db := c5Db1 reg M fid }

/-- Promo state after the featured grant of the first wash. -/
def c5SFeat (reg : String) (M : ℕ) (fid : ℕ) : PromoState :=
  { customerId := some 0, isFree := true, price := 0,
    commissionPctEffective := 0, promoId := some fid,
    track := some Track.featured, db := c5Db1 reg M fid }

/-- The first wash of the C5 scenario: free, featured. -/
def c5W1 (reg : String) (M d1 : ℕ) (fid : ℕ) : Wash :=
  { id := 0, customer_id := some 0, vehicle_reg := some reg,
    promo_id := some fid, is_free := true, washed_at := ⟨M, d1⟩,
    unit_price := 0, commission_pct := 0,
    commission_amount := commissionAmount 0 0,
    profit_amount := profitAmount 0 (commissionAmount 0 0) }

/-- Database after the first wash of the C5 scenario. -/
def c5DbA1 (reg : String) (M d1 : ℕ) (fid : ℕ) : Db :=
  { c5Db reg M fid with
      customers := [⟨0, none, none, some reg, 1⟩],
      nextCustomerId := 1,
      washes := [c5W1 reg M d1 fid],
      nextWashId := 1 }

/-- Promo state after the upsert of the second wash. -/
def c5S1b (reg : String) (M d1 : ℕ) (fid : ℕ) (price pct : ℚ) : PromoState :=
  { customerId := some 0, isFree := false, price := price,
    commissionPctEffective := pct, promoId := none, track := none,
    db := c5DbA1 reg M d1 fid }

/-- The second wash of the C5 scenario: paid at the proposed price. -/
def c5W2 (reg : String) (M d2 : ℕ) (price pct : ℚ) : Wash :=
  { id := 1, customer_id := some 0, vehicle_reg := some reg,
    promo_id := none, is_free := false, washed_at := ⟨M, d2⟩,
    unit_price := price, commission_pct := pct,
    commission_amount := commissionAmount price pct,
    profit_amount := profitAmount price (commissionAmount price pct) }

/-- Database after the second wash of the C5 scenario. -/
def c5DbA2 (reg : String) (M d1 d2 : ℕ) (fid : ℕ) (price pct : ℚ) : Db :=
  { c5Db reg M fid with
      customers := [⟨0, none, none, some reg, 2⟩],
      nextCustomerId := 1,
      washes := [c5W1 reg M d1 fid, c5W2 reg M d2 price pct],
      nextWashId := 2 }

/-- C5: for any plate featured for month `M`, with
`featured_free_once_per_month` enforced and the featured promotion
active and no other track able to grant, the plate's first wash in `M`
is free (price 0, commission 0, featured promo) and its second wash in
`M` is charged the proposed price. -/
theorem featured_first_free_then_paid (reg : String)
    (hreg : (reg == "") = false) (htrim : jsTrim reg = reg)
    (M d1 d2 : ℕ) (fid : ℕ) (price pct rand1 rand2 : ℚ) (now : Day) :
    createWash (c5Db reg M fid) noFaults rand1 now (c5Req reg price pct M d1) =
      .ok (c5DbA1 reg M d1 fid, c5W1 reg M d1 fid) ∧
    (c5W1 reg M d1 fid).is_free = true ∧
    (c5W1 reg M d1 fid).unit_price = 0 ∧
    (c5W1 reg M d1 fid).commission_pct = 0 ∧
    (c5W1 reg M d1 fid).promo_id = some fid ∧
    createWash (c5DbA1 reg M d1 fid) noFaults rand2 now (c5Req reg price pct M d2) =
      .ok (c5DbA2 reg M d1 d2 fid price pct, c5W2 reg M d2 price pct) ∧
    (c5W2 reg M d2 price pct).is_free = false ∧
    (c5W2 reg M d2 price pct).unit_price = price ∧
    (c5W2 reg M d2 price pct).commission_pct = pct ∧
    (c5W2 reg M d2 price pct).promo_id = none := by
  have hup1 : upsertStep noFaults none none (some reg)
      (initPromoState (c5Db reg M fid) price pct) =
      .inr (c5S1 reg M fid price pct) := by
    unfold upsertStep upsertCustomer
    simp only [jsFalsyStr, orNull, hreg, Bool.true_and, Bool.false_eq_true,
      if_false, if_true, List.find?_nil]
    rfl
  have hft1 : featuredStep noFaults (some reg) (some ⟨M, d1⟩) now
      (c5S1 reg M fid price pct) = .inr (c5SFeat reg M fid) := by
    unfold featuredStep isVehicleFeaturedForMonth hasUsedFeaturedRewardThisMonth
      getFeaturedPromoId activePromoId monthOf
    simp only [jsFalsyStr, hreg, htrim, Bool.false_eq_true, if_false, if_true,
      c5S1, c5Db1, c5Db, c5Cust, Option.getD_some, List.filter_nil,
      List.filter_cons, List.filter_singleton, beq_self_eq_true, Bool.and_self,
      List.head?_cons, List.length_nil, noFaults]
    rfl
  have hpe1 : promoEval (c5Db reg M fid) noFaults rand1 now none none
      (some reg) (some ⟨M, d1⟩) price pct = c5SFeat reg M fid := by
    unfold promoEval promoTry
    rw [hup1]
    simp only [pthen]
    rw [hft1]
    rfl
  have h1 : createWash (c5Db reg M fid) noFaults rand1 now
      (c5Req reg price pct M d1) =
      .ok (c5DbA1 reg M d1 fid, c5W1 reg M d1 fid) := by
    unfold createWash resolvePrice
    dsimp only [c5Req]
    simp only [Option.getD_some, Option.isNone_some, Bool.or_self,
      Bool.false_eq_true, if_false]
    rw [hpe1]
    unfold washRecordOf dbAfterCreate
    simp only [c5SFeat, orNull, jsFalsyStr, hreg, Bool.false_eq_true, if_false]
    rfl
  have hup2 : upsertStep noFaults none none (some reg)
      (initPromoState (c5DbA1 reg M d1 fid) price pct) =
      .inr (c5S1b reg M d1 fid price pct) := by
    unfold upsertStep upsertCustomer
    have hfind : List.find? (fun c => c.vehicle_reg == some reg)
        [(⟨0, none, none, some reg, 1⟩ : Customer)] =
        some ⟨0, none, none, some reg, 1⟩ :=
      List.find?_cons_of_pos _ (by simp)
    simp only [jsFalsyStr, orNull, hreg, Bool.true_and, Bool.false_eq_true,
      if_false, if_true, initPromoState, c5DbA1, c5Db]
    simp only [hfind]
    simp only [List.map_cons, List.map_nil, beq_self_eq_true, if_true]
    rfl
  have hft2 : featuredStep noFaults (some reg) (some ⟨M, d2⟩) now
      (c5S1b reg M d1 fid price pct) =
      .inr (c5S1b reg M d1 fid price pct) := by
    unfold featuredStep isVehicleFeaturedForMonth hasUsedFeaturedRewardThisMonth
      getFeaturedPromoId activePromoId monthOf
    simp only [jsFalsyStr, hreg, htrim, Bool.false_eq_true, if_false, if_true,
      c5S1b, c5DbA1, c5Db, c5W1, Option.getD_some, List.filter_cons,
      List.filter_nil, List.filter_singleton, beq_self_eq_true, Bool.and_self,
      List.head?_cons, List.find?_cons_of_pos, noFaults, Bool.true_and,
      List.length_cons, List.length_nil]
    rfl
  have hl2 : loyaltyStep noFaults (some ⟨M, d2⟩) now
      (c5S1b reg M d1 fid price pct) =
      .inr (c5S1b reg M d1 fid price pct) := by
    unfold loyaltyStep countCustomerWashesThisMonth
    simp only [c5S1b, c5DbA1, c5Db, c5W1, Option.isSome_some, Bool.not_false,
      Bool.and_self, if_true, noFaults, Bool.false_eq_true, if_false,
      Option.getD_some, List.filter_cons, List.filter_nil, beq_self_eq_true,
      List.length_cons, List.length_nil]
    rfl
  have hr2 : randomStep noFaults rand2 now (c5S1b reg M d1 fid price pct) =
      .inr (c5S1b reg M d1 fid price pct) := by
    rw [randomStep_noFaults _ _ _ rfl]
    rfl
  have hpe2 : promoEval (c5DbA1 reg M d1 fid) noFaults rand2 now none none
      (some reg) (some ⟨M, d2⟩) price pct = c5S1b reg M d1 fid price pct := by
    unfold promoEval promoTry
    rw [hup2]
    simp only [pthen]
    rw [hft2]
    simp only [pthen]
    rw [hl2]
    simp only [pthen]
    rw [hr2]
  have h2 : createWash (c5DbA1 reg M d1 fid) noFaults rand2 now
      (c5Req reg price pct M d2) =
      .ok (c5DbA2 reg M d1 d2 fid price pct, c5W2 reg M d2 price pct) := by
    unfold createWash resolvePrice
    dsimp only [c5Req]
    simp only [Option.getD_some, Option.isNone_some, Bool.or_self,
      Bool.false_eq_true, if_false]
    rw [hpe2]
    unfold washRecordOf dbAfterCreate
    simp only [c5S1b, c5DbA1, c5Db, orNull, jsFalsyStr, hreg,
      Bool.false_eq_true, if_false]
    rfl
  exact ⟨h1, rfl, rfl, rfl, rfl, h2, rfl, rfl, rfl, rfl⟩

/-- Witness for C5 at a concrete plate, month and price. -/
theorem featured_first_free_then_paid_witness :
    createWash (c5Db "KAA123A" 100 7) noFaults 0 ⟨100, 9⟩
      (c5Req "KAA123A" 600 30 100 3) =
      .ok (c5DbA1 "KAA123A" 100 3 7, c5W1 "KAA123A" 100 3 7) ∧
    (c5W1 "KAA123A" 100 3 7).is_free = true ∧
    createWash (c5DbA1 "KAA123A" 100 3 7) noFaults 0 ⟨100, 9⟩
      (c5Req "KAA123A" 600 30 100 8) =
      .ok (c5DbA2 "KAA123A" 100 3 8 7 600 30, c5W2 "KAA123A" 100 8 600 30) ∧
    (c5W2 "KAA123A" 100 8 600 30).is_free = false ∧
    (c5W2 "KAA123A" 100 8 600 30).unit_price = 600 := by
  have h := featured_first_free_then_paid "KAA123A" (by decide) (by decide)
    100 3 8 7 600 30 0 0 ⟨100, 9⟩
  exact ⟨h.1, h.2.1, h.2.2.2.2.2.1, h.2.2.2.2.2.2.1, h.2.2.2.2.2.2.2.1⟩

end Autowash
